import Mathlib

/-!
# Authorizer: signup resolver, record creation, CQL session queries, Cassandra provisioning

A shallow embedding of

* `server/resolvers/signup.go` (`SignupResolver`),
* `server/db/providers/provider_template/verification_requests.go` (`AddVerificationRequest`),
* `server/db/providers/cassandradb/session.go` (`AddSession`, `DeleteSession`),
* `server/db/providers/cassandradb/provider.go` (`NewProvider`),

together with the properties of these functions.

Conventions of the embedding.

* A Go `error` is its message; a Go result pair `(v, err)` is a Lean pair whose second
  component is `Option Error` (`none` for `nil`).
* A Go pointer field (`*string`, `*int64`) is an `Option`.
* Calls that leave the function (provider calls, session store, cookies, mail, log) are
  recorded, in program order, in a list of events; what they return is read from an
  environment record, because the callee is not part of the embedded file.
* `time.Now()` is a reading of a clock in nanoseconds since the Unix epoch (an `Int`).
-/

namespace Authorizer

/-! ## Shared data model -/

/-- A Go `error`, identified with its message. -/
abbrev Error := String

/-- Nanoseconds in one second (`time.Second`). -/
def Second : Int := 1000000000

/-- Nanoseconds in one minute (`time.Minute`). -/
def Minute : Int := 60 * Second

/-- Seconds since the epoch of a clock reading: `Time.Unix()`. -/
def Unix (t : Int) : Int := t / Second

/-- The Go method `Time.Add`. -/
def TimeAdd (t d : Int) : Int := t + d

/-- The record `models.User` (fields as in the user table of `provider.go`). -/
structure User where
  id : String := ""
  email : String := ""
  emailVerifiedAt : Option Int := none
  password : Option String := none
  signupMethods : String := ""
  givenName : Option String := none
  familyName : Option String := none
  middleName : Option String := none
  nickname : Option String := none
  gender : Option String := none
  birthdate : Option String := none
  phoneNumber : Option String := none
  phoneNumberVerifiedAt : Option Int := none
  picture : Option String := none
  roles : String := ""
  revokedTimestamp : Option Int := none
  createdAt : Int := 0
  updatedAt : Int := 0
deriving DecidableEq

/-- The record `models.VerificationRequest` of `db/models/verification_requests.go`. -/
structure VerificationRequest where
  key : String := ""
  id : String := ""
  token : String := ""
  identifier : String := ""
  expiresAt : Int := 0
  email : String := ""
  nonce : String := ""
  redirectURI : String := ""
  createdAt : Int := 0
  updatedAt : Int := 0
deriving DecidableEq

/-- The record `models.Session` (fields as `AddSession` uses them). -/
structure Session where
  id : String := ""
  userID : String := ""
  userAgent : String := ""
  ip : String := ""
  createdAt : Int := 0
  updatedAt : Int := 0
deriving DecidableEq

/-! ## `resolvers/signup.go` -/

/-- The input `model.SignUpInput`. -/
structure SignUpInput where
  email : String
  password : String
  confirmPassword : String
  roles : List String := []
  givenName : Option String := none
  familyName : Option String := none
  middleName : Option String := none
  nickname : Option String := none
  gender : Option String := none
  birthdate : Option String := none
  phoneNumber : Option String := none
  picture : Option String := none
deriving DecidableEq

/-- The response `model.AuthResponse`; `ρ` is the API user type `model.User`. -/
structure AuthResponse (ρ : Type) where
  message : String
  accessToken : Option String := none
  expiresAt : Option Int := none
  user : Option ρ := none
deriving DecidableEq

/-- Modelled from the spec: the constant `constants.VerificationTypeBasicAuthSignup`, whose
declaration is not among the sources; the spec names the purpose tag of a signup
verification request "basic_signup". -/
def VerificationTypeBasicAuthSignup : String := "basic_signup"

/-- Everything `SignupResolver` reads from outside its own file: the request context, the
environment store, the library and utility functions, the provider and the clock.
`γ` is the type of the gin context, `ρ` the API user type. -/
structure Env (γ ρ : Type) where
  /-- The call `utils.GinContextFromContext(ctx)`. -/
  ginContextFromContext : Except Error γ
  /-- The flag `EnvKeyDisableBasicAuthentication`. -/
  disableBasicAuthentication : Bool
  /-- The flag `EnvKeyDisableEmailVerification`. -/
  disableEmailVerification : Bool
  /-- The slice `EnvKeyRoles`: the allow-list. -/
  roles : List String
  /-- The slice `EnvKeyDefaultRoles`. -/
  defaultRoles : List String
  /-- The constant `constants.SignupMethodBasicAuth`. -/
  signupMethodBasicAuth : String
  /-- The constant `constants.TokenTypeRefreshToken`. -/
  tokenTypeRefreshToken : String
  /-- The constant `constants.TokenTypeAccessToken`. -/
  tokenTypeAccessToken : String
  /-- The Go function `strings.ToLower`. -/
  toLower : String → String
  /-- The function `utils.IsValidEmail`. -/
  isValidEmail : String → Bool
  /-- The function `utils.IsValidRoles(allowed, requested)`. -/
  isValidRoles : List String → List String → Bool
  /-- The function `utils.EncryptPassword`. -/
  encryptPassword : String → String × Option Error
  /-- The function `utils.CreateVerificationToken(email, tokenType)`. -/
  createVerificationToken : String → String → String × Option Error
  /-- The function `utils.CreateAuthToken(user, tokenType, roles)`. -/
  createAuthToken : User → String → List String → String × Int × Option Error
  /-- The function `utils.GetResponseUserData`. -/
  getResponseUserData : User → ρ
  /-- The provider method `GetUserByEmail`. -/
  getUserByEmail : String → User × Option Error
  /-- The provider method `AddUser`. -/
  addUser : User → User × Option Error
  /-- The provider method `AddVerificationRequest`; the resolver discards what it returns. -/
  addVerificationRequest : VerificationRequest → VerificationRequest × Option Error
  /-- The reading of `time.Now()`; the resolver reads the clock once on every path. -/
  timeNow : Int

/-- The calls by which `SignupResolver` acts on the world, in program order. -/
inductive Event (γ : Type) where
  | log (msg : String)
  | getUserByEmail (email : String)
  | addUser (user : User)
  | addVerificationRequest (vr : VerificationRequest)
  | sendVerificationMail (email token : String)
  | setUserSession (userId accessToken refreshToken : String)
  | saveSessionInDB (userId : String) (gc : γ)
  | setCookie (gc : γ) (accessToken : String)
deriving DecidableEq

/-- What a run of `SignupResolver` returns (`res`, `err`) and what it did (`events`). -/
structure Outcome (γ ρ : Type) where
  res : Option (AuthResponse ρ)
  err : Option Error
  events : List (Event γ)

/-- One field of a comma separated text, scanning characters: the worker of `stringsSplit`. -/
def splitComma : List Char → List Char → List String
  | acc, [] => [String.mk acc.reverse]
  | acc, c :: cs =>
    if c = ',' then String.mk acc.reverse :: splitComma [] cs else splitComma (c :: acc) cs

/-- The call `strings.Split(s, ",")`. -/
def stringsSplit (s : String) : List String := splitComma [] s.data

/-- The call `strings.Join(elems, ",")`. -/
def stringsJoin (elems : List String) : String := ",".intercalate elems

/-- Lines 67-112 of `signup.go`: the user record handed to `AddUser`. The record starts
as the zero value with `Email` set; each later assignment sets one field, and an optional
profile field is assigned only when the input carries a value (`!= nil`). -/
def signupUser {γ ρ : Type} (env : Env γ ρ) (params : SignUpInput) (email : String)
    (inputRoles : List String) : User :=
  let password := (env.encryptPassword params.password).1
  { email := email
    roles := stringsJoin inputRoles
    password := some password
    givenName := if params.givenName ≠ none then params.givenName else none
    familyName := if params.familyName ≠ none then params.familyName else none
    middleName := if params.middleName ≠ none then params.middleName else none
    nickname := if params.nickname ≠ none then params.nickname else none
    gender := if params.gender ≠ none then params.gender else none
    birthdate := if params.birthdate ≠ none then params.birthdate else none
    phoneNumber := if params.phoneNumber ≠ none then params.phoneNumber else none
    picture := if params.picture ≠ none then params.picture else none
    signupMethods := env.signupMethodBasicAuth
    emailVerifiedAt :=
      if env.disableEmailVerification then
        let now := Unix env.timeNow
        some now
      else none }

/-- Lines 121-143 of `signup.go`: the events of the branch that requires verification,
after `evs`; `token` and `terr` are what `CreateVerificationToken` returned. -/
def verificationEvents {γ : Type} (now : Int) (email token : String) (terr : Option Error)
    (evs : List (Event γ)) : List (Event γ) :=
  let verificationType := VerificationTypeBasicAuthSignup
  let evs := match terr with
    | some e => evs ++ [Event.log ("error generating token " ++ e)]
    | none => evs
  let evs := evs ++ [Event.addVerificationRequest
    { token := token
      identifier := verificationType
      expiresAt := Unix (TimeAdd now (Minute * 30))
      email := email }]
  evs ++ [Event.sendVerificationMail email token]

/-- Lines 113-162 of `signup.go`: `AddUser` and the two branches on email verification.
`evs` are the events so far. -/
def signupCreate {γ ρ : Type} (env : Env γ ρ) (gc : γ) (params : SignUpInput) (email : String)
    (inputRoles : List String) (evs : List (Event γ)) : Outcome γ ρ :=
  let user0 := signupUser env params email inputRoles
  let user := (env.addUser user0).1
  let err := (env.addUser user0).2
  let evs := evs ++ [Event.addUser user0]
  if err ≠ none then ⟨none, err, evs⟩
  else
    let userIdStr := user.id
    let roles := stringsSplit user.roles
    let userToReturn := env.getResponseUserData user
    if !env.disableEmailVerification then
      let verificationType := VerificationTypeBasicAuthSignup
      let token := (env.createVerificationToken email verificationType).1
      let terr := (env.createVerificationToken email verificationType).2
      ⟨some { message := "Verification email has been sent. Please check your inbox"
              user := some userToReturn }, none,
        verificationEvents env.timeNow email token terr evs⟩
    else
      let refreshToken := (env.createAuthToken user env.tokenTypeRefreshToken roles).1
      let accessToken := (env.createAuthToken user env.tokenTypeAccessToken roles).1
      let expiresAt := (env.createAuthToken user env.tokenTypeAccessToken roles).2.1
      let evs := evs ++ [Event.setUserSession userIdStr accessToken refreshToken]
      let evs := evs ++ [Event.saveSessionInDB user.id gc]
      let evs := evs ++ [Event.setCookie gc accessToken]
      ⟨some { message := "Signed up successfully."
              accessToken := some accessToken
              expiresAt := some expiresAt
              user := some userToReturn }, none, evs⟩

/-- Lines 41-45 of `signup.go`: the lookup and, when it reports an error, the log line. -/
def lookupEvents {γ : Type} (email : String) (err : Option Error) : List (Event γ) :=
  match err with
  | some _ =>
    [Event.getUserByEmail email, Event.log ("user with email " ++ email ++ " not found")]
  | none => [Event.getUserByEmail email]

/-- The resolver `SignupResolver` of `signup.go`. -/
def SignupResolver {γ ρ : Type} (env : Env γ ρ) (params : SignUpInput) : Outcome γ ρ :=
  match env.ginContextFromContext with
  | .error err => ⟨none, some err, []⟩
  | .ok gc =>
    if env.disableBasicAuthentication then
      ⟨none, some "basic authentication is disabled for this instance", []⟩
    else if params.confirmPassword ≠ params.password then
      ⟨none, some "password and confirm password does not match", []⟩
    else
      let email := env.toLower params.email
      if !env.isValidEmail email then
        ⟨none, some "invalid email address", []⟩
      else
        let existingUser := (env.getUserByEmail email).1
        let err := (env.getUserByEmail email).2
        let evs := lookupEvents email err
        if existingUser.emailVerifiedAt ≠ none then
          ⟨none, some (email ++ " has already signed up"), evs⟩
        else if existingUser.id ≠ "" ∧ existingUser.emailVerifiedAt = none then
          ⟨none, some (email ++ " has already signed up. please complete the email verification process or reset the password"), evs⟩
        else if params.roles.length > 0 then
          if !env.isValidRoles env.roles params.roles then
            ⟨none, some "invalid roles", evs⟩
          else
            signupCreate env gc params email params.roles evs
        else
          signupCreate env gc params email env.defaultRoles evs

/-- Whether an event writes to the user, verification request or session stores. -/
def Event.isWrite {γ : Type} : Event γ → Bool
  | .addUser _ => true
  | .addVerificationRequest _ => true
  | .setUserSession _ _ _ => true
  | .saveSessionInDB _ _ => true
  | _ => false

/-- A concrete environment for evaluating the resolver: ASCII lower-casing, an email is
valid when it contains `@`, a role list is valid when every role is allowed, one stored
verified user `ann@b.com` and one stored unverified user `bob@b.com`. -/
def demoEnv (disableVerification : Bool) : Env Unit User where
  ginContextFromContext := .ok ()
  disableBasicAuthentication := false
  disableEmailVerification := disableVerification
  roles := ["user", "admin"]
  defaultRoles := ["user"]
  signupMethodBasicAuth := "basic_auth"
  tokenTypeRefreshToken := "refresh_token"
  tokenTypeAccessToken := "access_token"
  toLower := fun s => String.mk (s.data.map Char.toLower)
  isValidEmail := fun s => s.data.contains '@'
  isValidRoles := fun allowed requested => requested.all (fun r => allowed.contains r)
  encryptPassword := fun p => ("hash(" ++ p ++ ")", none)
  createVerificationToken := fun e t => ("token(" ++ e ++ "," ++ t ++ ")", none)
  createAuthToken := fun u t _ => (t ++ ":" ++ u.id, 3600, none)
  getResponseUserData := fun u => u
  getUserByEmail := fun e =>
    if e = "ann@b.com" then
      ({ id := "u1", email := e, emailVerifiedAt := some 5 }, none)
    else if e = "bob@b.com" then ({ id := "u2", email := e }, none)
    else ({}, some "record not found")
  addUser := fun u => ({ u with id := "new-id" }, none)
  addVerificationRequest := fun v => ({ v with id := "vr-id" }, none)
  timeNow := 1700000000123456789

/-- The user of an `AddUser` call. -/
def Event.addedUser? {γ : Type} : Event γ → Option User
  | .addUser u => some u
  | _ => none

/-- The record of an `AddVerificationRequest` call. -/
def Event.verificationRequest? {γ : Type} : Event γ → Option VerificationRequest
  | .addVerificationRequest v => some v
  | _ => none

/-- Whether an event writes a session: `SetUserSession` or `SaveSessionInDB`. -/
def Event.isSessionWrite {γ : Type} : Event γ → Bool
  | .setUserSession _ _ _ => true
  | .saveSessionInDB _ _ => true
  | _ => false

/-- Whether an event is a line of the log. -/
def Event.isLog {γ : Type} : Event γ → Bool
  | .log _ => true
  | _ => false

/-- A signup whose two passwords differ, for the stored verified email. -/
def mismatchInput : SignUpInput :=
  { email := "Ann@B.com", password := "x", confirmPassword := "y" }

/-- A valid signup for the stored verified email. -/
def verifiedInput : SignUpInput :=
  { email := "Ann@B.com", password := "x", confirmPassword := "x" }

/-- A valid signup for the stored unverified email. -/
def unverifiedInput : SignUpInput :=
  { email := "Bob@B.com", password := "x", confirmPassword := "x" }

/-- A valid signup for an email that is not stored, with a role and a profile field. -/
def newInput : SignUpInput :=
  { email := "New@B.com", password := "x", confirmPassword := "x", roles := ["admin"],
    givenName := some "New" }

/-- The environment `demoEnv false`, except that the user lookup fails with a timeout. -/
def timeoutEnv : Env Unit User :=
  { demoEnv false with
    getUserByEmail := fun _ =>
      ({}, some "gocql: no response received from cassandra within timeout period") }

/-- The environment `demoEnv false`, except that `AddUser` fails. -/
def addUserFailsEnv : Env Unit User :=
  { demoEnv false with addUser := fun u => (u, some "gocql: connection closed") }

/-! ## `db/providers/provider_template/verification_requests.go` -/

/-- The method `AddVerificationRequest` of the provider template. `newUUID` is the value of
`uuid.New().String()`, `now1` and `now2` are the two readings of `time.Now()`. -/
def AddVerificationRequest (newUUID : String) (now1 now2 : Int)
    (verificationRequest : VerificationRequest) : VerificationRequest × Option Error :=
  let verificationRequest :=
    if verificationRequest.id = "" then { verificationRequest with id := newUUID }
    else verificationRequest
  let verificationRequest := { verificationRequest with createdAt := Unix now1 }
  let verificationRequest := { verificationRequest with updatedAt := Unix now2 }
  (verificationRequest, none)

/-! ## `db/providers/cassandradb/session.go` -/

/-- The verb `%d` of `fmt.Sprintf` on an `int64`. -/
def fmtInt (n : Int) : String := toString n

/-- Lines 13-18 of `session.go`: the session record after the id and the times are set. -/
def AddSessionRecord (newUUID : String) (now1 now2 : Int) (session : Session) : Session :=
  let session := if session.id = "" then { session with id := newUUID } else session
  let session := { session with createdAt := Unix now1 }
  { session with updatedAt := Unix now2 }

/-- Line 20 of `session.go`: the text of the insert statement. `keySpace` is the package
variable `KeySpace`, `collection` the constant `models.Collections.Session`. -/
def insertSessionQuery (keySpace collection : String) (session : Session) : String :=
  "INSERT INTO " ++ (keySpace ++ "." ++ collection) ++
    " (id, user_id, user_agent, ip, created_at, updated_at) VALUES ('" ++ session.id ++
    "', '" ++ session.userID ++ "', '" ++ session.userAgent ++ "', '" ++ session.ip ++
    "', " ++ fmtInt session.createdAt ++ ", " ++ fmtInt session.updatedAt ++ ")"

/-- The method `AddSession` of the Cassandra provider; `exec` is `p.db.Query(q).Exec()`. -/
def AddSession (exec : String → Option Error) (keySpace collection newUUID : String)
    (now1 now2 : Int) (session : Session) : Option Error :=
  let session := AddSessionRecord newUUID now1 now2 session
  let insertSessionQuery := insertSessionQuery keySpace collection session
  match exec insertSessionQuery with
  | some err => some err
  | none => none

/-- Line 30 of `session.go`: the text of the delete statement. -/
def deleteSessionQuery (keySpace collection userId : String) : String :=
  "DELETE FROM " ++ (keySpace ++ "." ++ collection) ++ " WHERE user_id = '" ++ userId ++ "'"

/-- The method `DeleteSession` of the Cassandra provider. -/
def DeleteSession (exec : String → Option Error) (keySpace collection userId : String) :
    Option Error :=
  match exec (deleteSessionQuery keySpace collection userId) with
  | some err => some err
  | none => none

/-- The single quote, which delimits a CQL string literal. -/
def quote : Char := Char.ofNat 39

/-- Where a scan of CQL text stands: in statement text, inside a string literal, or inside
a literal just after a quote (which ends the literal unless a second quote follows). -/
inductive LexMode where
  | text
  | literal
  | quoteSeen
deriving DecidableEq

/-- The scan behind `cqlShape`. -/
def cqlShapeAux : LexMode → List Char → Option (List Char)
  | .text, [] => some []
  | .literal, [] => none
  | .quoteSeen, [] => some ['?']
  | .text, c :: cs =>
    if c = quote then cqlShapeAux .literal cs else (cqlShapeAux .text cs).map (c :: ·)
  | .literal, c :: cs =>
    if c = quote then cqlShapeAux .quoteSeen cs else cqlShapeAux .literal cs
  | .quoteSeen, c :: cs =>
    if c = quote then cqlShapeAux .literal cs
    else (cqlShapeAux .text cs).map (fun r => '?' :: c :: r)

/-- The structure of a CQL statement: its text with every string literal (single quoted,
a doubled quote standing for a quote inside the literal) replaced by `?`, the place of a
bound value; `none` when a literal is not closed. Two statements that differ only in the
values they carry have the same shape. -/
def cqlShape (q : String) : Option String := (cqlShapeAux .text q.data).map String.mk

/-! ## `db/providers/cassandradb/provider.go` -/

/-- The values `NewProvider` reads from `envstore.EnvStoreObj`. -/
structure EnvStore where
  databaseURL : String := ""
  databaseHost : String := ""
  databasePort : String := ""
  databaseName : String := ""
  databaseUsername : String := ""
  databasePassword : String := ""
  databaseCert : String := ""
  databaseCACert : String := ""
  databaseCertKey : String := ""
deriving DecidableEq

/-- The table names `models.Collections` (declared outside the embedded files). -/
structure Collections where
  env : String
  session : String
  user : String
  verificationRequest : String
deriving DecidableEq

/-- A key pair accepted by `tls.X509KeyPair`. -/
structure Certificate where
  certPEM : String
  keyPEM : String
deriving DecidableEq

/-- The value `cansandraDriver.SslOptions` as `NewProvider` fills it; `rootCAs` holds the
PEM texts the pool accepted. -/
structure SslOptions where
  certificates : List Certificate
  rootCAs : List String
  insecureSkipVerify : Bool
  enableHostVerification : Bool
deriving DecidableEq

/-- The consistency levels of the driver that occur in `provider.go`. -/
inductive Consistency where
  | unset
  | localQuorum
deriving DecidableEq

/-- The value `gocql.ClusterConfig` as `NewProvider` fills it. -/
structure ClusterConfig where
  hosts : List String
  authenticator : Option (String × String) := none
  sslOpts : Option SslOptions := none
  numRetries : Nat := 0
  consistency : Consistency := Consistency.unset
deriving DecidableEq

/-- The statements `NewProvider` sends after the keyspace listing. -/
inductive Stmt where
  | createKeyspace (keySpace : String)
  | createTableIfNotExists (keySpace table columns : String)
  | createIndexIfNotExists (name keySpace table column : String)
deriving DecidableEq

/-- The CQL text of a statement, as the `fmt.Sprintf` calls of `provider.go` build it. -/
def Stmt.cql : Stmt → String
  | .createKeyspace keySpace =>
    "CREATE KEYSPACE " ++ keySpace ++
      " WITH REPLICATION = \x7b'class': 'SimpleStrategy', 'replication_factor': 1\x7d;"
  | .createTableIfNotExists keySpace table columns =>
    "CREATE TABLE IF NOT EXISTS " ++ keySpace ++ "." ++ table ++ " (" ++ columns ++ ")"
  | .createIndexIfNotExists name keySpace table column =>
    "CREATE INDEX IF NOT EXISTS " ++ name ++ " ON " ++ keySpace ++ "." ++ table ++
      " (" ++ column ++ ")"

/-- The text of the keyspace listing query (line 97), which `Driver.scanKeyspaces` answers. -/
def getKeyspaceQuery : String := "SELECT keyspace_name FROM system_schema.keyspaces;"

/-- What `NewProvider` calls outside its own file, over a store of type `σ`. -/
structure Driver (σ : Type) where
  /-- The function `crypto.DecryptB64`. -/
  decryptB64 : String → String × Option Error
  /-- The function `tls.X509KeyPair(certPEM, keyPEM)`: the error, if any. -/
  x509KeyPair : String → String → Option Error
  /-- The method `CertPool.AppendCertsFromPEM`: whether a certificate was parsed. -/
  appendCertsFromPEM : String → Bool
  /-- The method `ClusterConfig.CreateSession`: the error, if any. -/
  createSession : ClusterConfig → σ → Option Error
  /-- The rows of the keyspace listing, each with the outcome of its `Scan`, and the error
  of the iteration itself, which the scanner reports only through `Err()`: `Next()` is
  false both at the end of the rows and after a failure. -/
  scanKeyspaces : σ → List (String × Option Error) × Option Error
  /-- The call `session.Query(stmt).Exec()`: the store afterwards and the error, if any. -/
  exec : σ → Stmt → σ × Option Error

/-- The steps of `NewProvider` that can fail, as they are executed. -/
inductive Step where
  | decryptB64 (cipher : String)
  | x509KeyPair
  | appendCertsFromPEM
  | createSession
  | listKeyspaces
  | exec (stmt : Stmt)
deriving DecidableEq

/-- What a run of `NewProvider` returns (`provider`, `err`), the store it leaves and the
steps it executed. The package variable `KeySpace` it sets is `cfg.databaseName`. -/
structure ProviderResult (σ : Type) where
  provider : Option ClusterConfig
  err : Option Error
  store : σ
  steps : List Step

/-- Lines 27-33 and 36-41: the contact points of the cluster. -/
def clusterURL (cfg : EnvStore) : List String :=
  let dbURL :=
    if cfg.databaseURL = "" then
      if cfg.databasePort ≠ "" then cfg.databaseHost ++ ":" ++ cfg.databasePort
      else cfg.databaseHost
    else cfg.databaseURL
  if dbURL.data.contains ',' then stringsSplit dbURL else [] ++ [dbURL]

/-- Lines 100-111: the loop over the rows of the keyspace listing. The result is the flag
`hasAuthorizerKeySpace`, or the error of a failed `Scan`. -/
def scanLoop (keySpace : String) : List (String × Option Error) → Except Error Bool
  | [] => .ok false
  | (name, err) :: rows =>
    match err with
    | some e => .error e
    | none => if name = keySpace then .ok true else scanLoop keySpace rows

/-- The pattern `err = session.Query(q).Exec(); if err != nil { return nil, err }`,
repeated over the statements in order: the store afterwards, the first error, and the
statements executed. -/
def execAll {σ : Type} (d : Driver σ) : σ → List Stmt → σ × Option Error × List Stmt
  | s, [] => (s, none, [])
  | s, stmt :: rest =>
    match d.exec s stmt with
    | (s1, some err) => (s1, some err, [stmt])
    | (s1, none) =>
      let r := execAll d s1 rest
      (r.1, r.2.1, stmt :: r.2.2)

/-- Lines 122-175: the tables and indexes, in the order of the source. -/
def collectionStmts (keySpace : String) (c : Collections) : List Stmt :=
  [ .createTableIfNotExists keySpace c.env
      "id text, env text, hash text, updated_at bigint, created_at bigint, PRIMARY KEY (id)",
    .createTableIfNotExists keySpace c.session
      "id text, user_id text, user_agent text, ip text, updated_at bigint, created_at bigint, PRIMARY KEY (id)",
    .createTableIfNotExists keySpace c.user
      "id text, email text, email_verified_at bigint, password text, signup_methods text, given_name text, family_name text, middle_name text, nickname text, gender text, birthdate text, phone_number text, phone_number_verified_at bigint, picture text, roles text, updated_at bigint, created_at bigint, revoked_timestamp bigint, PRIMARY KEY (id)",
    .createIndexIfNotExists "authorizer_user_email" keySpace c.user "email",
    .createTableIfNotExists keySpace c.verificationRequest
      "id text, jwt_token text, identifier text, expires_at bigint, email text, nonce text, redirect_uri text, created_at bigint, updated_at bigint, PRIMARY KEY (id)",
    .createIndexIfNotExists "authorizer_verification_request_email" keySpace
      c.verificationRequest "email",
    .createIndexIfNotExists "authorizer_verification_request_identifier" keySpace
      c.verificationRequest "identifier",
    .createIndexIfNotExists "authorizer_verification_request_jwt_token" keySpace
      c.verificationRequest "jwt_token" ]

/-- Lines 95-175 of `provider.go`: the keyspace listing, the keyspace, the tables and the
indexes. The result is the store afterwards, the error that ends startup (if any), and
the steps executed. -/
def provision {σ : Type} (d : Driver σ) (keySpace : String) (c : Collections) (s : σ) :
    σ × Option Error × List Step :=
  match scanLoop keySpace (d.scanKeyspaces s).1 with
  | .error err => (s, some err, [Step.listKeyspaces])
  | .ok hasAuthorizerKeySpace =>
    let stmts :=
      if !hasAuthorizerKeySpace then Stmt.createKeyspace keySpace :: collectionStmts keySpace c
      else collectionStmts keySpace c
    let r := execAll d s stmts
    (r.1, r.2.1, Step.listKeyspaces :: r.2.2.map Step.exec)

/-- The function `NewProvider` of `provider.go`, run against the store `s`. -/
def NewProvider {σ : Type} (d : Driver σ) (cfg : EnvStore) (c : Collections) (s : σ) :
    ProviderResult σ :=
  let keySpace := cfg.databaseName
  let cassandraClient : ClusterConfig := { hosts := clusterURL cfg }
  let cassandraClient :=
    if cfg.databaseUsername ≠ "" ∧ cfg.databasePassword ≠ "" then
      { cassandraClient with authenticator := some (cfg.databaseUsername, cfg.databasePassword) }
    else cassandraClient
  let connect (cassandraClient : ClusterConfig) (steps : List Step) : ProviderResult σ :=
    let cassandraClient := { cassandraClient with numRetries := 3 }
    let cassandraClient := { cassandraClient with consistency := Consistency.localQuorum }
    match d.createSession cassandraClient s with
    | some err => ⟨none, some err, s, steps ++ [Step.createSession]⟩
    | none =>
      let r := provision d keySpace c s
      match r.2.1 with
      | some err => ⟨none, some err, r.1, steps ++ [Step.createSession] ++ r.2.2⟩
      | none => ⟨some cassandraClient, none, r.1, steps ++ [Step.createSession] ++ r.2.2⟩
  if cfg.databaseCert ≠ "" ∧ cfg.databaseCACert ≠ "" ∧ cfg.databaseCertKey ≠ "" then
    match d.decryptB64 cfg.databaseCert with
    | (_, some err) => ⟨none, some err, s, [Step.decryptB64 cfg.databaseCert]⟩
    | (certString, none) =>
      match d.decryptB64 cfg.databaseCertKey with
      | (_, some err) =>
        ⟨none, some err, s, [Step.decryptB64 cfg.databaseCert, Step.decryptB64 cfg.databaseCertKey]⟩
      | (keyString, none) =>
        match d.decryptB64 cfg.databaseCACert with
        | (_, some err) =>
          ⟨none, some err, s, [Step.decryptB64 cfg.databaseCert,
            Step.decryptB64 cfg.databaseCertKey, Step.decryptB64 cfg.databaseCACert]⟩
        | (caString, none) =>
          match d.x509KeyPair certString keyString with
          | some err =>
            ⟨none, some err, s, [Step.decryptB64 cfg.databaseCert,
              Step.decryptB64 cfg.databaseCertKey, Step.decryptB64 cfg.databaseCACert,
              Step.x509KeyPair]⟩
          | none =>
            let cert : Certificate := ⟨certString, keyString⟩
            let caCertPool := if d.appendCertsFromPEM caString then [caString] else []
            connect
              { cassandraClient with
                sslOpts := some
                  { certificates := [cert]
                    rootCAs := caCertPool
                    insecureSkipVerify := true
                    enableHostVerification := false } }
              [Step.decryptB64 cfg.databaseCert, Step.decryptB64 cfg.databaseCertKey,
                Step.decryptB64 cfg.databaseCACert, Step.x509KeyPair, Step.appendCertsFromPEM]
  else connect cassandraClient []

/-- The schema of a store: its keyspaces, its tables (keyspace, table) and its indexes
(keyspace, index name). -/
structure Schema where
  keyspaces : List String
  tables : List (String × String)
  indexes : List (String × String)
deriving DecidableEq

/-- The empty store. -/
def Schema.empty : Schema := ⟨[], [], []⟩

/-- How the store answers a statement: `CREATE KEYSPACE` fails on an existing keyspace;
`CREATE TABLE IF NOT EXISTS` needs its keyspace and does nothing when the table exists;
`CREATE INDEX IF NOT EXISTS` needs its table and does nothing when the index exists. -/
def Schema.exec (s : Schema) : Stmt → Schema × Option Error
  | .createKeyspace keySpace =>
    if keySpace ∈ s.keyspaces then (s, some ("Cannot add existing keyspace " ++ keySpace))
    else ({ s with keyspaces := s.keyspaces ++ [keySpace] }, none)
  | .createTableIfNotExists keySpace table _ =>
    if keySpace ∉ s.keyspaces then (s, some ("Keyspace " ++ keySpace ++ " does not exist"))
    else if (keySpace, table) ∈ s.tables then (s, none)
    else ({ s with tables := s.tables ++ [(keySpace, table)] }, none)
  | .createIndexIfNotExists name keySpace table _ =>
    if (keySpace, table) ∉ s.tables then (s, some ("table " ++ table ++ " does not exist"))
    else if (keySpace, name) ∈ s.indexes then (s, none)
    else ({ s with indexes := s.indexes ++ [(keySpace, name)] }, none)

/-- A store that is nothing but its schema: every connection step succeeds, the keyspace
listing returns the keyspaces of the schema, statements act as `Schema.exec`. -/
def schemaDriver : Driver Schema where
  decryptB64 := fun cipher => (cipher, none)
  x509KeyPair := fun _ _ => none
  appendCertsFromPEM := fun _ => true
  createSession := fun _ _ => none
  scanKeyspaces := fun s => (s.keyspaces.map (fun k => (k, none)), none)
  exec := Schema.exec

/-- One schema is contained in another. -/
def Schema.le (a b : Schema) : Prop :=
  a.keyspaces ⊆ b.keyspaces ∧ a.tables ⊆ b.tables ∧ a.indexes ⊆ b.indexes

/-- The object a statement asks for is in the schema, with what it is built on. -/
def Schema.holds (s : Schema) : Stmt → Prop
  | .createKeyspace keySpace => keySpace ∈ s.keyspaces
  | .createTableIfNotExists keySpace table _ =>
    keySpace ∈ s.keyspaces ∧ (keySpace, table) ∈ s.tables
  | .createIndexIfNotExists name keySpace table _ =>
    (keySpace, table) ∈ s.tables ∧ (keySpace, name) ∈ s.indexes

/-- What a statement needs in order to succeed. -/
def Schema.ready (s : Schema) : Stmt → Prop
  | .createKeyspace keySpace => keySpace ∉ s.keyspaces
  | .createTableIfNotExists keySpace _ _ => keySpace ∈ s.keyspaces
  | .createIndexIfNotExists _ keySpace table _ => (keySpace, table) ∈ s.tables

/-- Whether a statement is `CREATE KEYSPACE`. -/
def Stmt.isCreateKeyspace : Stmt → Bool
  | .createKeyspace _ => true
  | _ => false

/-- A list of table and index statements is in a workable order over the keyspaces
`ksA` and tables `tA`: every table names an available keyspace and every index names a
table that is available or created earlier in the list. -/
def wellOrdered : List String → List (String × String) → List Stmt → Prop
  | _, _, [] => True
  | _, _, .createKeyspace _ :: _ => False
  | ksA, tA, .createTableIfNotExists keySpace table _ :: rest =>
    keySpace ∈ ksA ∧ wellOrdered ksA ((keySpace, table) :: tA) rest
  | ksA, tA, .createIndexIfNotExists _ keySpace table _ :: rest =>
    (keySpace, table) ∈ tA ∧ wellOrdered ksA tA rest

/-- Table names for evaluating `NewProvider` and the session queries. -/
def demoCollections : Collections :=
  ⟨"authorizer_env", "authorizer_sessions", "authorizer_users",
    "authorizer_verification_requests"⟩

/-- A configuration with TLS material. -/
def tlsEnvStore : EnvStore :=
  { databaseHost := "cassandra.local"
    databasePort := "9042"
    databaseName := "authorizer"
    databaseCert := "cert"
    databaseCACert := "not a certificate"
    databaseCertKey := "key" }

/-- A configuration without TLS material. -/
def plainEnvStore : EnvStore :=
  { databaseHost := "cassandra.local", databasePort := "9042", databaseName := "authorizer" }

/-- The schema store, except that the CA text does not parse: `AppendCertsFromPEM`
returns false. -/
def badCADriver : Driver Schema :=
  { schemaDriver with appendCertsFromPEM := fun _ => false }

/-- The schema store, except that the keyspace listing fails: no rows, and the error is
reported through `Err()`. -/
def listingFailsDriver : Driver Schema :=
  { schemaDriver with
    scanKeyspaces := fun _ =>
      ([], some "gocql: no response received from cassandra within timeout period") }

/-- A session record for evaluating the queries. -/
def demoSession (userAgent : String) : Session :=
  { id := "s1", userID := "u1", userAgent := userAgent, ip := "10.0.0.1",
    createdAt := 5, updatedAt := 5 }

/-- A database that answers every statement with the text it received, which makes the
text that `AddSession` and `DeleteSession` send visible in their result. -/
def echoExec : String → Option Error := fun q => some q

/-- A store in which the keyspace of `plainEnvStore` already exists. -/
def keyspaceOnlySchema : Schema := ⟨["authorizer"], [], []⟩

/-- The scan behind `cqlLiterals`; `cur` holds the characters of the literal being read,
last first. -/
def cqlLiteralsAux : LexMode → List Char → List Char → Option (List String)
  | .text, _, [] => some []
  | .literal, _, [] => none
  | .quoteSeen, cur, [] => some [String.mk cur.reverse]
  | .text, _, c :: cs =>
    if c = quote then cqlLiteralsAux .literal [] cs else cqlLiteralsAux .text [] cs
  | .literal, cur, c :: cs =>
    if c = quote then cqlLiteralsAux .quoteSeen cur cs
    else cqlLiteralsAux .literal (c :: cur) cs
  | .quoteSeen, cur, c :: cs =>
    if c = quote then cqlLiteralsAux .literal (quote :: cur) cs
    else (cqlLiteralsAux .text [] cs).map (String.mk cur.reverse :: ·)

/-- The values of the string literals of a CQL statement, in order, as the store reads
them: the text between the quotes, a doubled quote standing for one quote; `none` when a
literal is not closed. For the insert statement of `AddSession` these are the id, user id,
user agent and ip of the row that is inserted. -/
def cqlLiterals (q : String) : Option (List String) := cqlLiteralsAux .text [] q.data

/-- A session whose user agent contains a doubled single quote. -/
def quotedSession : Session := { userID := "u1", userAgent := "it''s", ip := "10.0.0.1" }

/-! ## Properties of `SignupResolver` -/

theorem lookupEvents_isWrite {γ : Type} (email : String) (err : Option Error) :
    ∀ e ∈ (lookupEvents email err : List (Event γ)), e.isWrite = false := by
  cases err <;> simp [lookupEvents, Event.isWrite]

theorem lookupEvents_addedUser {γ : Type} (email : String) (err : Option Error) :
    (lookupEvents email err : List (Event γ)).filterMap Event.addedUser? = [] := by
  cases err <;> simp [lookupEvents, Event.addedUser?]

theorem lookupEvents_verificationRequest {γ : Type} (email : String) (err : Option Error) :
    (lookupEvents email err : List (Event γ)).filterMap Event.verificationRequest? = [] := by
  cases err <;> simp [lookupEvents, Event.verificationRequest?]

theorem lookupEvents_isSessionWrite {γ : Type} (email : String) (err : Option Error) :
    ∀ e ∈ (lookupEvents email err : List (Event γ)), e.isSessionWrite = false := by
  cases err <;> simp [lookupEvents, Event.isSessionWrite]

theorem ite_ne_none (x : Option String) : (if x ≠ none then x else none) = x := by
  cases x <;> simp

theorem signupUser_fields {γ ρ : Type} (env : Env γ ρ) (params : SignUpInput) (email : String)
    (inputRoles : List String) :
    signupUser env params email inputRoles =
      { email := email
        roles := stringsJoin inputRoles
        password := some (env.encryptPassword params.password).1
        givenName := params.givenName
        familyName := params.familyName
        middleName := params.middleName
        nickname := params.nickname
        gender := params.gender
        birthdate := params.birthdate
        phoneNumber := params.phoneNumber
        picture := params.picture
        signupMethods := env.signupMethodBasicAuth
        emailVerifiedAt := if env.disableEmailVerification then some (Unix env.timeNow) else none } := by
  simp only [signupUser, ite_ne_none]

theorem unix_add_30min (t : Int) : Unix (TimeAdd t (Minute * 30)) = Unix t + 1800 := by
  unfold Unix TimeAdd Minute Second
  have : (60 * 1000000000 * 30 : Int) = 1800 * 1000000000 := by norm_num
  rw [this, Int.add_mul_ediv_right _ _ (by norm_num)]

/-- The roles `SignupResolver` joins into the user record (lines 54-65). -/
theorem resolver_new_email {γ ρ : Type} (env : Env γ ρ) (params : SignUpInput) (gc : γ)
    (hgc : env.ginContextFromContext = .ok gc)
    (hon : env.disableBasicAuthentication = false)
    (hpw : params.confirmPassword = params.password)
    (hmail : env.isValidEmail (env.toLower params.email) = true)
    (hid : (env.getUserByEmail (env.toLower params.email)).1.id = "")
    (hnv : (env.getUserByEmail (env.toLower params.email)).1.emailVerifiedAt = none)
    (hroles : params.roles = [] ∨ env.isValidRoles env.roles params.roles = true) :
    SignupResolver env params =
      signupCreate env gc params (env.toLower params.email)
        (if params.roles = [] then env.defaultRoles else params.roles)
        (lookupEvents (env.toLower params.email)
          (env.getUserByEmail (env.toLower params.email)).2) := by
  by_cases hr : params.roles = []
  · simp [SignupResolver, hgc, hon, hpw, hmail, hid, hnv, hr]
  · have hlen : 0 < params.roles.length := List.length_pos.mpr hr
    have hv : env.isValidRoles env.roles params.roles = true := by
      rcases hroles with h | h
      · exact absurd h hr
      · exact h
    simp [SignupResolver, hgc, hon, hpw, hmail, hid, hnv, hr, hlen, hv]

theorem signupCreate_addedUser {γ ρ : Type} (env : Env γ ρ) (gc : γ) (params : SignUpInput)
    (email : String) (inputRoles : List String) (evs : List (Event γ))
    (hevs : evs.filterMap Event.addedUser? = []) :
    (signupCreate env gc params email inputRoles evs).events.filterMap Event.addedUser? =
      [signupUser env params email inputRoles] := by
  unfold signupCreate
  simp only []
  split_ifs with h1 h2
  · simp [hevs, Event.addedUser?]
  · cases hq : (env.createVerificationToken email VerificationTypeBasicAuthSignup).2 <;>
      simp [verificationEvents, hevs, Event.addedUser?, List.filterMap_append]
  · simp [hevs, Event.addedUser?, List.filterMap_append]

/-- If the resolver returns no error it took the path through `AddUser`. -/
theorem resolver_success_path {γ ρ : Type} (env : Env γ ρ) (params : SignUpInput)
    (h : (SignupResolver env params).err = none) :
    ∃ gc, env.ginContextFromContext = .ok gc ∧
      env.disableBasicAuthentication = false ∧
      params.confirmPassword = params.password ∧
      env.isValidEmail (env.toLower params.email) = true ∧
      (env.getUserByEmail (env.toLower params.email)).1.id = "" ∧
      (env.getUserByEmail (env.toLower params.email)).1.emailVerifiedAt = none ∧
      (params.roles = [] ∨ env.isValidRoles env.roles params.roles = true) := by
  cases hgc : env.ginContextFromContext with
  | error e => simp [SignupResolver, hgc] at h
  | ok gc =>
    refine ⟨gc, rfl, ?_⟩
    by_cases h1 : env.disableBasicAuthentication = true
    · simp [SignupResolver, hgc, h1] at h
    by_cases h2 : params.confirmPassword = params.password
    swap
    · simp [SignupResolver, hgc, h1, h2] at h
    by_cases h3 : env.isValidEmail (env.toLower params.email) = true
    swap
    · simp [SignupResolver, hgc, h1, h2, h3] at h
    by_cases h4 : (env.getUserByEmail (env.toLower params.email)).1.emailVerifiedAt = none
    swap
    · simp [SignupResolver, hgc, h1, h2, h3, h4] at h
    by_cases h5 : (env.getUserByEmail (env.toLower params.email)).1.id = ""
    swap
    · simp [SignupResolver, hgc, h1, h2, h3, h4, h5] at h
    refine ⟨by simpa using h1, h2, h3, h5, h4, ?_⟩
    by_cases hr : params.roles = []
    · exact Or.inl hr
    · right
      have hlen : 0 < params.roles.length := List.length_pos.mpr hr
      by_cases hv : env.isValidRoles env.roles params.roles = true
      · exact hv
      · simp [SignupResolver, hgc, h1, h2, h3, h4, h5, hlen, hv] at h

/-- The two conflict messages differ for every email. -/
theorem conflict_messages_ne (email : String) :
    email ++ " has already signed up" ≠
      email ++ " has already signed up. please complete the email verification process or reset the password" := by
  intro h
  have h2 := congrArg String.length h
  simp [String.length_append] at h2
  revert h2
  decide

theorem verificationEvents_isSessionWrite {γ : Type} (now : Int) (email token : String)
    (terr : Option Error) (evs : List (Event γ))
    (hevs : ∀ e ∈ evs, e.isSessionWrite = false) :
    ∀ e ∈ verificationEvents now email token terr evs, e.isSessionWrite = false := by
  cases terr <;>
    simpa [verificationEvents, or_imp, forall_and, Event.isSessionWrite] using hevs

theorem verificationEvents_verificationRequest {γ : Type} (now : Int) (email token : String)
    (terr : Option Error) (evs : List (Event γ))
    (hevs : evs.filterMap Event.verificationRequest? = []) :
    (verificationEvents now email token terr evs).filterMap Event.verificationRequest? =
      [{ token := token, identifier := "basic_signup", email := email,
         expiresAt := Unix now + 1800 }] := by
  cases terr <;>
    simp [verificationEvents, hevs, Event.verificationRequest?, List.filterMap_append,
      unix_add_30min, VerificationTypeBasicAuthSignup]

theorem inbox_message :
    "Verification email has been sent. Please check your inbox" =
      "Verification email has been sent. Please " ++ "check your inbox" ++ "" := by
  decide

theorem lookupEvents_filter_log {γ : Type} (email : String) (err : Option Error) :
    (lookupEvents email err : List (Event γ)).filter (fun e => !e.isLog) =
      [Event.getUserByEmail email] := by
  cases err <;> simp [lookupEvents, Event.isLog]

/-- The events of `signupCreate` extend the events so far; its results do not depend on
them. -/
theorem signupCreate_events {γ ρ : Type} (env : Env γ ρ) (gc : γ) (params : SignUpInput)
    (email : String) (inputRoles : List String) (evs : List (Event γ)) :
    (signupCreate env gc params email inputRoles evs).events =
        evs ++ (signupCreate env gc params email inputRoles []).events ∧
      (signupCreate env gc params email inputRoles evs).res =
        (signupCreate env gc params email inputRoles []).res ∧
      (signupCreate env gc params email inputRoles evs).err =
        (signupCreate env gc params email inputRoles []).err := by
  unfold signupCreate
  simp only []
  split_ifs with h1 h2
  · simp
  · cases hq : (env.createVerificationToken email VerificationTypeBasicAuthSignup).2 <;>
      simp [verificationEvents]
  · simp

/-- The resolver never reads the error of the lookup except to log it. -/
theorem resolver_lookup_error {γ ρ : Type} (env : Env γ ρ) (params : SignUpInput) :
    (SignupResolver { env with getUserByEmail := fun m => ((env.getUserByEmail m).1, none) }
        params).res = (SignupResolver env params).res ∧
     (SignupResolver { env with getUserByEmail := fun m => ((env.getUserByEmail m).1, none) }
        params).err = (SignupResolver env params).err ∧
     (SignupResolver { env with getUserByEmail := fun m => ((env.getUserByEmail m).1, none) }
        params).events.filter (fun e => !e.isLog) =
        (SignupResolver env params).events.filter (fun e => !e.isLog) := by
  have hc : ∀ gc email inputRoles evs,
      signupCreate { env with getUserByEmail := fun m => ((env.getUserByEmail m).1, none) }
        gc params email inputRoles evs = signupCreate env gc params email inputRoles evs :=
    fun _ _ _ _ => rfl
  have hf := lookupEvents_filter_log (γ := γ) (env.toLower params.email)
  unfold SignupResolver
  simp only [hc]
  split
  · simp
  · split_ifs <;> first
      | (simp; done)
      | simp [hf]
      | (rw [(signupCreate_events env _ params _ _ (lookupEvents _ none)).1,
            (signupCreate_events env _ params _ _ (lookupEvents _ none)).2.1,
            (signupCreate_events env _ params _ _ (lookupEvents _ none)).2.2,
            (signupCreate_events env _ params _ _ (lookupEvents _ (env.getUserByEmail _).2)).1,
            (signupCreate_events env _ params _ _ (lookupEvents _ (env.getUserByEmail _).2)).2.1,
            (signupCreate_events env _ params _ _ (lookupEvents _ (env.getUserByEmail _).2)).2.2]
         simp [hf])

/-- An `AddUser` event of the resolver carries the record built by `signupUser`, and the
resolver returns what `signupCreate` returns. -/
theorem resolver_addUser_event {γ ρ : Type} (env : Env γ ρ) (params : SignUpInput) (u : User)
    (hu : Event.addUser u ∈ (SignupResolver env params).events) :
    ∃ gc inputRoles evs,
      SignupResolver env params =
        signupCreate env gc params (env.toLower params.email) inputRoles evs ∧
      u = signupUser env params (env.toLower params.email) inputRoles := by
  have hw := lookupEvents_isWrite (γ := γ) (env.toLower params.email)
    (env.getUserByEmail (env.toLower params.email)).2
  have hl0 := lookupEvents_addedUser (γ := γ) (env.toLower params.email)
    (env.getUserByEmail (env.toLower params.email)).2
  have hno : Event.addUser u ∉ lookupEvents (env.toLower params.email)
      (env.getUserByEmail (env.toLower params.email)).2 := fun hm => by
    have := hw _ hm
    simp [Event.isWrite] at this
  cases hgc : env.ginContextFromContext with
  | error e => simp [SignupResolver, hgc] at hu
  | ok gc =>
    by_cases h1 : env.disableBasicAuthentication = true
    · simp [SignupResolver, hgc, h1] at hu
    by_cases h2 : params.confirmPassword = params.password
    swap
    · simp [SignupResolver, hgc, h1, h2] at hu
    by_cases h3 : env.isValidEmail (env.toLower params.email) = true
    swap
    · simp [SignupResolver, hgc, h1, h2, h3] at hu
    by_cases h4 : (env.getUserByEmail (env.toLower params.email)).1.emailVerifiedAt = none
    swap
    · simp [SignupResolver, hgc, h1, h2, h3, h4] at hu
      exact absurd hu hno
    by_cases h5 : (env.getUserByEmail (env.toLower params.email)).1.id = ""
    swap
    · simp [SignupResolver, hgc, h1, h2, h3, h4, h5] at hu
      exact absurd hu hno
    by_cases hr : params.roles = []
    · have hEq := resolver_new_email env params gc hgc (by simpa using h1) h2 h3 h5 h4 (Or.inl hr)
      refine ⟨gc, _, _, hEq, ?_⟩
      rw [hEq] at hu
      have hm : u ∈ (signupCreate env gc params (env.toLower params.email)
          (if params.roles = [] then env.defaultRoles else params.roles)
          (lookupEvents (env.toLower params.email)
            (env.getUserByEmail (env.toLower params.email)).2)).events.filterMap
          Event.addedUser? := List.mem_filterMap.mpr ⟨_, hu, rfl⟩
      rw [signupCreate_addedUser env gc params _ _ _ hl0] at hm
      simpa using hm
    · have hlen : 0 < params.roles.length := List.length_pos.mpr hr
      by_cases hv : env.isValidRoles env.roles params.roles = true
      swap
      · simp [SignupResolver, hgc, h1, h2, h3, h4, h5, hlen, hv] at hu
        exact absurd hu hno
      have hEq := resolver_new_email env params gc hgc (by simpa using h1) h2 h3 h5 h4 (Or.inr hv)
      refine ⟨gc, _, _, hEq, ?_⟩
      rw [hEq] at hu
      have hm : u ∈ (signupCreate env gc params (env.toLower params.email)
          (if params.roles = [] then env.defaultRoles else params.roles)
          (lookupEvents (env.toLower params.email)
            (env.getUserByEmail (env.toLower params.email)).2)).events.filterMap
          Event.addedUser? := List.mem_filterMap.mpr ⟨_, hu, rfl⟩
      rw [signupCreate_addedUser env gc params _ _ _ hl0] at hm
      simpa using hm

/-- The response, the error and the events of the resolver do not depend on what
`AddVerificationRequest` returns. -/
theorem resolver_discards_addVerificationRequest {γ ρ : Type} (env : Env γ ρ)
    (params : SignUpInput)
    (f : VerificationRequest → VerificationRequest × Option Error) :
    SignupResolver { env with addVerificationRequest := f } params =
      SignupResolver env params :=
  rfl

/-- Claim C1. A signup that fails validation (basic authentication disabled, or password
different from confirmPassword, or the lower-cased email syntactically invalid, or a
non-empty requested role list rejected against the allow-list) makes `SignupResolver`
return an error and a nil response, and no event of the run is an `AddUser`, an
`AddVerificationRequest` or a session write. -/
theorem signup_validation_failure_no_write {γ ρ : Type} (env : Env γ ρ) (params : SignUpInput)
    (h : env.disableBasicAuthentication = true ∨ params.password ≠ params.confirmPassword ∨
      env.isValidEmail (env.toLower params.email) = false ∨
      (params.roles ≠ [] ∧ env.isValidRoles env.roles params.roles = false)) :
    (∃ msg, (SignupResolver env params).err = some msg) ∧
    (SignupResolver env params).res = none ∧
    ∀ e ∈ (SignupResolver env params).events, e.isWrite = false := by
  have hw := lookupEvents_isWrite (γ := γ) (env.toLower params.email)
    (env.getUserByEmail (env.toLower params.email)).2
  cases hgc : env.ginContextFromContext with
  | error e => simp [SignupResolver, hgc]
  | ok gc =>
    by_cases h1 : env.disableBasicAuthentication = true
    · simp [SignupResolver, hgc, h1]
    by_cases h2 : params.confirmPassword = params.password
    swap
    · simp [SignupResolver, hgc, h1, h2]
    by_cases h3 : env.isValidEmail (env.toLower params.email) = true
    swap
    · simp [SignupResolver, hgc, h1, h2, h3]
    by_cases h4 : (env.getUserByEmail (env.toLower params.email)).1.emailVerifiedAt = none
    swap
    · simpa [SignupResolver, hgc, h1, h2, h3, h4] using hw
    by_cases h5 : (env.getUserByEmail (env.toLower params.email)).1.id = ""
    swap
    · simpa [SignupResolver, hgc, h1, h2, h3, h4, h5] using hw
    rcases h with h | h | h | ⟨h, h'⟩
    · exact absurd h h1
    · exact absurd h2.symm h
    · simp [h] at h3
    · have hlen : 0 < params.roles.length := List.length_pos.mpr h
      simpa [SignupResolver, hgc, h1, h2, h3, h4, h5, hlen, h'] using hw

/-- Witness for C1: the signup with two different passwords. -/
theorem signup_validation_failure_no_write_witness :
    mismatchInput.password ≠ mismatchInput.confirmPassword ∧
    ((∃ msg, (SignupResolver (demoEnv false) mismatchInput).err = some msg) ∧
      (SignupResolver (demoEnv false) mismatchInput).res = none ∧
      ∀ e ∈ (SignupResolver (demoEnv false) mismatchInput).events, e.isWrite = false) :=
  ⟨by decide,
    signup_validation_failure_no_write (demoEnv false) mismatchInput
      (Or.inr (Or.inl (by decide)))⟩

/-- Claim C2, as the code has it. When the lookup of the lower-cased email returns a
stored user (non-empty id), `SignupResolver` returns an error and a nil response and never
calls `AddUser`. When the request also passes the checks made before the lookup (request
context present, basic authentication enabled, passwords equal, email valid), the message
is `<email> has already signed up` for a verified user and the longer message for an
unverified one, and the two messages differ for every email. -/
theorem signup_existing_email_rejected {γ ρ : Type} (env : Env γ ρ) (params : SignUpInput)
    (hstored : (env.getUserByEmail (env.toLower params.email)).1.id ≠ "") :
    (∃ msg, (SignupResolver env params).err = some msg) ∧
    (SignupResolver env params).res = none ∧
    (SignupResolver env params).events.filterMap Event.addedUser? = [] ∧
    ((∃ gc, env.ginContextFromContext = .ok gc) →
      env.disableBasicAuthentication = false →
      params.confirmPassword = params.password →
      env.isValidEmail (env.toLower params.email) = true →
      ((env.getUserByEmail (env.toLower params.email)).1.emailVerifiedAt ≠ none →
        (SignupResolver env params).err =
          some (env.toLower params.email ++ " has already signed up")) ∧
      ((env.getUserByEmail (env.toLower params.email)).1.emailVerifiedAt = none →
        (SignupResolver env params).err =
          some (env.toLower params.email ++ " has already signed up. please complete the email verification process or reset the password")) ∧
      env.toLower params.email ++ " has already signed up" ≠
        env.toLower params.email ++ " has already signed up. please complete the email verification process or reset the password") := by
  have hl0 := lookupEvents_addedUser (γ := γ) (env.toLower params.email)
    (env.getUserByEmail (env.toLower params.email)).2
  cases hgc : env.ginContextFromContext with
  | error e => simp [SignupResolver, hgc]
  | ok gc =>
    by_cases h1 : env.disableBasicAuthentication = true
    · simp [SignupResolver, hgc, h1]
    by_cases h2 : params.confirmPassword = params.password
    swap
    · simp [SignupResolver, hgc, h1, h2]
    by_cases h3 : env.isValidEmail (env.toLower params.email) = true
    swap
    · simp [SignupResolver, hgc, h1, h2, h3]
    by_cases h4 : (env.getUserByEmail (env.toLower params.email)).1.emailVerifiedAt = none
    · simp [SignupResolver, hgc, h1, h2, h3, h4, hstored, hl0, conflict_messages_ne]
    · simp [SignupResolver, hgc, h1, h2, h3, h4, hl0, conflict_messages_ne]

/-- Witness for C2: valid signups for the stored verified and the stored unverified email. -/
theorem signup_existing_email_rejected_witness :
    (((demoEnv false).getUserByEmail ((demoEnv false).toLower verifiedInput.email)).1.id ≠ "" ∧
      (SignupResolver (demoEnv false) verifiedInput).err =
        some ((demoEnv false).toLower verifiedInput.email ++ " has already signed up") ∧
      (SignupResolver (demoEnv false) verifiedInput).events.filterMap Event.addedUser? = []) ∧
    (((demoEnv false).getUserByEmail ((demoEnv false).toLower unverifiedInput.email)).1.id ≠ "" ∧
      (SignupResolver (demoEnv false) unverifiedInput).err =
        some ((demoEnv false).toLower unverifiedInput.email ++ " has already signed up. please complete the email verification process or reset the password") ∧
      (SignupResolver (demoEnv false) unverifiedInput).events.filterMap Event.addedUser? = []) :=
  ⟨⟨by decide,
      ((signup_existing_email_rejected (demoEnv false) verifiedInput (by decide)).2.2.2
        ⟨(), rfl⟩ rfl rfl (by decide)).1 (by decide),
      (signup_existing_email_rejected (demoEnv false) verifiedInput (by decide)).2.2.1⟩,
    ⟨by decide,
      ((signup_existing_email_rejected (demoEnv false) unverifiedInput (by decide)).2.2.2
        ⟨(), rfl⟩ rfl rfl (by decide)).2.1 (by decide),
      (signup_existing_email_rejected (demoEnv false) unverifiedInput (by decide)).2.2.1⟩⟩

/-- Counterexample to C2 as stated: the email belongs to a stored verified user, the two
passwords differ, and the message is the one of the password check, not
`<email> has already signed up`. -/
theorem signup_existing_email_counterexample :
    ((demoEnv false).getUserByEmail ((demoEnv false).toLower mismatchInput.email)).1.id = "u1" ∧
    ((demoEnv false).getUserByEmail
      ((demoEnv false).toLower mismatchInput.email)).1.emailVerifiedAt = some 5 ∧
    (SignupResolver (demoEnv false) mismatchInput).err =
      some "password and confirm password does not match" ∧
    (SignupResolver (demoEnv false) mismatchInput).err ≠
      some ((demoEnv false).toLower mismatchInput.email ++ " has already signed up") := by
  decide

/-- Claim C3. A valid signup of a new email, with email verification required and `AddUser`
succeeding, returns a response without access token and expiry whose message contains
"check your inbox"; the run calls `AddVerificationRequest` exactly once, with identifier
"basic_signup", the lower-cased email, the token `CreateVerificationToken` made for that
email and identifier, and `expires_at` 1800 seconds after the clock reading; it writes no
session. -/
theorem signup_verification_required {γ ρ : Type} (env : Env γ ρ) (params : SignUpInput) (gc : γ)
    (hgc : env.ginContextFromContext = .ok gc)
    (hon : env.disableBasicAuthentication = false)
    (hpw : params.confirmPassword = params.password)
    (hmail : env.isValidEmail (env.toLower params.email) = true)
    (hid : (env.getUserByEmail (env.toLower params.email)).1.id = "")
    (hnv : (env.getUserByEmail (env.toLower params.email)).1.emailVerifiedAt = none)
    (hroles : params.roles = [] ∨ env.isValidRoles env.roles params.roles = true)
    (hadd : ∀ u : User, u.email = env.toLower params.email → (env.addUser u).2 = none)
    (hver : env.disableEmailVerification = false) :
    ∃ r, (SignupResolver env params).res = some r ∧ (SignupResolver env params).err = none ∧
      r.accessToken = none ∧ r.expiresAt = none ∧
      (∃ pre post, r.message = pre ++ "check your inbox" ++ post) ∧
      (SignupResolver env params).events.filterMap Event.verificationRequest? =
        [{ token := (env.createVerificationToken (env.toLower params.email) "basic_signup").1
           identifier := "basic_signup"
           email := env.toLower params.email
           expiresAt := Unix env.timeNow + 1800 }] ∧
      ∀ e ∈ (SignupResolver env params).events, e.isSessionWrite = false := by
  have hu := hadd (signupUser env params (env.toLower params.email)
    (if params.roles = [] then env.defaultRoles else params.roles))
    (by rw [signupUser_fields])
  have hl1 := lookupEvents_verificationRequest (γ := γ) (env.toLower params.email)
    (env.getUserByEmail (env.toLower params.email)).2
  have hl2 := lookupEvents_isSessionWrite (γ := γ) (env.toLower params.email)
    (env.getUserByEmail (env.toLower params.email)).2
  rw [resolver_new_email env params gc hgc hon hpw hmail hid hnv hroles]
  unfold signupCreate
  simp only [hu, hver]
  refine ⟨_, rfl, rfl, rfl, rfl, ⟨_, _, inbox_message⟩, ?_, ?_⟩
  · exact verificationEvents_verificationRequest _ _ _ _ _
      (by simp [List.filterMap_append, hl1, Event.verificationRequest?])
  · exact verificationEvents_isSessionWrite _ _ _ _ _
      (by simpa [or_imp, forall_and, Event.isSessionWrite] using hl2)

/-- Witness for C3: a valid signup of a new email with verification required. -/
theorem signup_verification_required_witness :
    (demoEnv false).isValidEmail ((demoEnv false).toLower newInput.email) = true ∧
    (demoEnv false).disableEmailVerification = false ∧
    (∃ r, (SignupResolver (demoEnv false) newInput).res = some r ∧
      (SignupResolver (demoEnv false) newInput).err = none ∧
      r.accessToken = none ∧ r.expiresAt = none ∧
      (∃ pre post, r.message = pre ++ "check your inbox" ++ post) ∧
      (SignupResolver (demoEnv false) newInput).events.filterMap Event.verificationRequest? =
        [{ token := ((demoEnv false).createVerificationToken
              ((demoEnv false).toLower newInput.email) "basic_signup").1
           identifier := "basic_signup"
           email := (demoEnv false).toLower newInput.email
           expiresAt := Unix (demoEnv false).timeNow + 1800 }] ∧
      ∀ e ∈ (SignupResolver (demoEnv false) newInput).events, e.isSessionWrite = false) :=
  ⟨by decide, rfl,
    signup_verification_required (demoEnv false) newInput () rfl rfl rfl (by decide)
      (by decide) (by decide) (by decide) (fun _ _ => rfl) rfl⟩

/-- Claim C4. A valid signup of a new email, with email verification disabled and
`AddUser` succeeding: the one user handed to `AddUser` has `email_verified_at` equal to the
clock reading in seconds, no `AddVerificationRequest` is made, the refresh and the access
token made by `CreateAuthToken` for the stored user are bound to its id by
`SetUserSession`, `SaveSessionInDB` is called for that id, and the response carries the
access token and its expiry. -/
theorem signup_verification_disabled {γ ρ : Type} (env : Env γ ρ) (params : SignUpInput) (gc : γ)
    (hgc : env.ginContextFromContext = .ok gc)
    (hon : env.disableBasicAuthentication = false)
    (hpw : params.confirmPassword = params.password)
    (hmail : env.isValidEmail (env.toLower params.email) = true)
    (hid : (env.getUserByEmail (env.toLower params.email)).1.id = "")
    (hnv : (env.getUserByEmail (env.toLower params.email)).1.emailVerifiedAt = none)
    (hroles : params.roles = [] ∨ env.isValidRoles env.roles params.roles = true)
    (hadd : ∀ u : User, u.email = env.toLower params.email → (env.addUser u).2 = none)
    (hver : env.disableEmailVerification = true) :
    ∃ (u : User) (r : AuthResponse ρ) (access refresh : String) (expires : Int),
      (SignupResolver env params).events.filterMap Event.addedUser? = [u] ∧
      u.emailVerifiedAt = some (Unix env.timeNow) ∧
      (SignupResolver env params).events.filterMap Event.verificationRequest? = [] ∧
      refresh = (env.createAuthToken (env.addUser u).1 env.tokenTypeRefreshToken
        (stringsSplit (env.addUser u).1.roles)).1 ∧
      (access, expires) =
        ((env.createAuthToken (env.addUser u).1 env.tokenTypeAccessToken
            (stringsSplit (env.addUser u).1.roles)).1,
         (env.createAuthToken (env.addUser u).1 env.tokenTypeAccessToken
            (stringsSplit (env.addUser u).1.roles)).2.1) ∧
      Event.setUserSession (env.addUser u).1.id access refresh ∈
        (SignupResolver env params).events ∧
      Event.saveSessionInDB (env.addUser u).1.id gc ∈ (SignupResolver env params).events ∧
      (SignupResolver env params).res = some r ∧ (SignupResolver env params).err = none ∧
      r.accessToken = some access ∧ r.expiresAt = some expires := by
  have hu := hadd (signupUser env params (env.toLower params.email)
    (if params.roles = [] then env.defaultRoles else params.roles))
    (by rw [signupUser_fields])
  have hl0 := lookupEvents_addedUser (γ := γ) (env.toLower params.email)
    (env.getUserByEmail (env.toLower params.email)).2
  have hl1 := lookupEvents_verificationRequest (γ := γ) (env.toLower params.email)
    (env.getUserByEmail (env.toLower params.email)).2
  rw [resolver_new_email env params gc hgc hon hpw hmail hid hnv hroles]
  refine ⟨signupUser env params (env.toLower params.email)
    (if params.roles = [] then env.defaultRoles else params.roles), ?_⟩
  unfold signupCreate
  simp only [hu, hver]
  refine ⟨_, _, _, _, ?_, ?_, ?_, rfl, rfl, ?_, ?_, rfl, rfl, rfl, rfl⟩
  · simp [List.filterMap_append, hl0, Event.addedUser?]
  · rw [signupUser_fields]; simp [hver]
  · simp [List.filterMap_append, hl1, Event.verificationRequest?]
  · simp
  · simp

/-- Witness for C4: a valid signup of a new email with verification disabled. -/
theorem signup_verification_disabled_witness :
    (demoEnv true).disableEmailVerification = true ∧
    (SignupResolver (demoEnv true) newInput).err = none ∧
    (SignupResolver (demoEnv true) newInput).events.filterMap Event.verificationRequest? = [] ∧
    (SignupResolver (demoEnv true) newInput).events.filterMap Event.addedUser? ≠ [] := by
  obtain ⟨u, r, access, refresh, expires, h1, -, h3, -, -, -, -, -, h9, -, -⟩ :=
    signup_verification_disabled (demoEnv true) newInput () rfl rfl rfl (by decide)
      (by decide) (by decide) (by decide) (fun _ _ => rfl) rfl
  exact ⟨rfl, h9, h3, by rw [h1]; simp⟩

/-- Claim C5, as the code has it. A failure of `AddUser` is surfaced: when the call is
made and fails, `SignupResolver` returns that error and a nil response. A failure of
`GetUserByEmail` is only logged: the response, the error and the events other than log
lines are those of the run in which the lookup returns the same user value without an
error. -/
theorem signup_storage_failures {γ ρ : Type} (env : Env γ ρ) (params : SignUpInput) :
    (∀ u e, Event.addUser u ∈ (SignupResolver env params).events → (env.addUser u).2 = some e →
      (SignupResolver env params).err = some e ∧ (SignupResolver env params).res = none) ∧
    ((SignupResolver { env with getUserByEmail := fun m => ((env.getUserByEmail m).1, none) }
        params).res = (SignupResolver env params).res ∧
     (SignupResolver { env with getUserByEmail := fun m => ((env.getUserByEmail m).1, none) }
        params).err = (SignupResolver env params).err ∧
     (SignupResolver { env with getUserByEmail := fun m => ((env.getUserByEmail m).1, none) }
        params).events.filter (fun e => !e.isLog) =
        (SignupResolver env params).events.filter (fun e => !e.isLog)) := by
  refine ⟨?_, resolver_lookup_error env params⟩
  intro u e hu he
  obtain ⟨gc, inputRoles, evs, hEq, hu0⟩ := resolver_addUser_event env params u hu
  subst hu0
  rw [hEq]
  unfold signupCreate
  simp [he]

/-- Witness for C5: `AddUser` fails and the resolver returns its error. -/
theorem signup_storage_failures_witness :
    (SignupResolver addUserFailsEnv newInput).err = some "gocql: connection closed" ∧
    (SignupResolver addUserFailsEnv newInput).res = none :=
  (signup_storage_failures addUserFailsEnv newInput).1
    (signupUser addUserFailsEnv newInput "new@b.com" ["admin"]) "gocql: connection closed"
    (by decide) (by decide)

/-- Counterexample to C5 as stated: the user lookup fails with a timeout and the resolver
returns a response and no error. -/
theorem signup_lookup_failure_counterexample :
    (timeoutEnv.getUserByEmail (timeoutEnv.toLower newInput.email)).2 =
      some "gocql: no response received from cassandra within timeout period" ∧
    (SignupResolver timeoutEnv newInput).err = none ∧
    (SignupResolver timeoutEnv newInput).res ≠ none := by
  decide

/-- Claim C6. In a signup that succeeds, exactly one user is handed to `AddUser`; its email
is the lower-cased input email, its roles are the comma-join of the requested roles when
the request names a role (and then the list was accepted against the allow-list) and of
the default roles otherwise, its password is what `EncryptPassword` returned for the input
password, its signup method is the basic-auth tag, and each optional profile field equals
the field of the input. -/
theorem signup_user_record {γ ρ : Type} (env : Env γ ρ) (params : SignUpInput)
    (h : (SignupResolver env params).err = none) :
    ∃ u, (SignupResolver env params).events.filterMap Event.addedUser? = [u] ∧
      u.email = env.toLower params.email ∧
      (params.roles ≠ [] → env.isValidRoles env.roles params.roles = true ∧
        u.roles = stringsJoin params.roles) ∧
      (params.roles = [] → u.roles = stringsJoin env.defaultRoles) ∧
      u.password = some (env.encryptPassword params.password).1 ∧
      u.signupMethods = env.signupMethodBasicAuth ∧
      u.givenName = params.givenName ∧ u.familyName = params.familyName ∧
      u.middleName = params.middleName ∧ u.nickname = params.nickname ∧
      u.gender = params.gender ∧ u.birthdate = params.birthdate ∧
      u.phoneNumber = params.phoneNumber ∧ u.picture = params.picture := by
  obtain ⟨gc, hgc, hon, hpw, hmail, hid, hnv, hroles⟩ := resolver_success_path env params h
  have hl0 := lookupEvents_addedUser (γ := γ) (env.toLower params.email)
    (env.getUserByEmail (env.toLower params.email)).2
  rw [resolver_new_email env params gc hgc hon hpw hmail hid hnv hroles]
  refine ⟨_, signupCreate_addedUser env gc params _ _ _ hl0, ?_⟩
  rw [signupUser_fields]
  refine ⟨rfl, ?_, ?_, rfl, rfl, rfl, rfl, rfl, rfl, rfl, rfl, rfl, rfl⟩
  · intro hr
    refine ⟨?_, by simp [hr]⟩
    rcases hroles with h | h
    · exact absurd h hr
    · exact h
  · intro hr
    simp [hr]

/-- Witness for C6: a signup that succeeds, with a requested role and a given name. -/
theorem signup_user_record_witness :
    (SignupResolver (demoEnv false) newInput).err = none ∧
    (∃ u, (SignupResolver (demoEnv false) newInput).events.filterMap Event.addedUser? = [u] ∧
      u.email = "new@b.com" ∧ u.roles = "admin" ∧ u.password = some "hash(x)" ∧
      u.givenName = some "New") := by
  obtain ⟨u, h1, h2, h3, -, h5, -, h7, -⟩ := signup_user_record (demoEnv false) newInput (by decide)
  refine ⟨by decide, u, h1, ?_, ?_, ?_, ?_⟩
  · rw [h2]; decide
  · rw [(h3 (by decide)).2]; decide
  · rw [h5]; decide
  · rw [h7]; rfl

/-! ## Properties of record creation and of the session statements -/

/-- The method `AddVerificationRequest` succeeds, keeps a non-empty id and uses the fresh
uuid for an empty one, sets `created_at` and `updated_at` to the clock readings in seconds
and leaves every other field as it was. -/
theorem AddVerificationRequest_frame (r : VerificationRequest) (newUUID : String)
    (t1 t2 : Int) (hu : newUUID ≠ "") :
    (AddVerificationRequest newUUID t1 t2 r).2 = none ∧
    (r.id ≠ "" → (AddVerificationRequest newUUID t1 t2 r).1.id = r.id) ∧
    (r.id = "" → (AddVerificationRequest newUUID t1 t2 r).1.id = newUUID) ∧
    (AddVerificationRequest newUUID t1 t2 r).1.id ≠ "" ∧
    (AddVerificationRequest newUUID t1 t2 r).1.createdAt = Unix t1 ∧
    (AddVerificationRequest newUUID t1 t2 r).1.updatedAt = Unix t2 ∧
    (AddVerificationRequest newUUID t1 t2 r).1.key = r.key ∧
    (AddVerificationRequest newUUID t1 t2 r).1.token = r.token ∧
    (AddVerificationRequest newUUID t1 t2 r).1.identifier = r.identifier ∧
    (AddVerificationRequest newUUID t1 t2 r).1.expiresAt = r.expiresAt ∧
    (AddVerificationRequest newUUID t1 t2 r).1.email = r.email ∧
    (AddVerificationRequest newUUID t1 t2 r).1.nonce = r.nonce ∧
    (AddVerificationRequest newUUID t1 t2 r).1.redirectURI = r.redirectURI := by
  by_cases hr : r.id = "" <;> simp [AddVerificationRequest, hr, hu]

/-- Lines 13-18 of `session.go` keep a non-empty id and use the fresh uuid for an empty
one, set the two times and leave user id, user agent and ip as they were. -/
theorem AddSessionRecord_frame (s : Session) (newUUID : String) (t1 t2 : Int)
    (hu : newUUID ≠ "") :
    (s.id ≠ "" → (AddSessionRecord newUUID t1 t2 s).id = s.id) ∧
    (s.id = "" → (AddSessionRecord newUUID t1 t2 s).id = newUUID) ∧
    (AddSessionRecord newUUID t1 t2 s).id ≠ "" ∧
    (AddSessionRecord newUUID t1 t2 s).createdAt = Unix t1 ∧
    (AddSessionRecord newUUID t1 t2 s).updatedAt = Unix t2 ∧
    (AddSessionRecord newUUID t1 t2 s).userID = s.userID ∧
    (AddSessionRecord newUUID t1 t2 s).userAgent = s.userAgent ∧
    (AddSessionRecord newUUID t1 t2 s).ip = s.ip := by
  by_cases hsid : s.id = "" <;> simp [AddSessionRecord, hsid, hu]

/-- The method `AddSession` returns what the store answers to the insert statement. -/
theorem AddSession_sends (exec : String → Option Error) (keySpace collection newUUID : String)
    (t1 t2 : Int) (s : Session) :
    AddSession exec keySpace collection newUUID t1 t2 s =
      exec (insertSessionQuery keySpace collection (AddSessionRecord newUUID t1 t2 s)) := by
  unfold AddSession
  simp only []
  cases exec (insertSessionQuery keySpace collection (AddSessionRecord newUUID t1 t2 s)) <;>
    rfl

set_option maxRecDepth 100000

theorem cqlShapeAux_literal_append (v r : List Char) (hv : quote ∉ v) :
    cqlShapeAux .literal (v ++ r) = cqlShapeAux .literal r := by
  induction v with
  | nil => rfl
  | cons c cs ih =>
    have hc : c ≠ quote := fun h => hv (by simp [h])
    have hcs : quote ∉ cs := fun h => hv (List.mem_cons_of_mem _ h)
    simp [cqlShapeAux, hc, ih hcs]

theorem cqlShapeAux_text_append (p r : List Char) (hp : quote ∉ p) :
    cqlShapeAux .text (p ++ r) = (cqlShapeAux .text r).map (p ++ ·) := by
  induction p with
  | nil => simp
  | cons c cs ih =>
    have hc : c ≠ quote := fun h => hp (by simp [h])
    have hcs : quote ∉ cs := fun h => hp (List.mem_cons_of_mem _ h)
    simp [cqlShapeAux, hc, ih hcs, Option.map_map, Function.comp_def]

/-- With no single quote in the keyspace, the table name and the user id, the statement of
`DeleteSession` has one shape, whatever the user id. -/
theorem deleteSessionQuery_shape (keySpace collection userId : String)
    (hk : quote ∉ keySpace.data) (hc : quote ∉ collection.data) (hu : quote ∉ userId.data) :
    cqlShape (deleteSessionQuery keySpace collection userId) =
      some ("DELETE FROM " ++ (keySpace ++ "." ++ collection) ++ " WHERE user_id = ?") := by
  have h1 : (deleteSessionQuery keySpace collection userId).data =
      ("DELETE FROM ".data ++ (keySpace.data ++ ".".data ++ collection.data) ++
        " WHERE user_id = ".data) ++ (quote :: (userId.data ++ [quote])) := by
    simp [deleteSessionQuery, String.data_append]
    rfl
  have hp : quote ∉ "DELETE FROM ".data ++ (keySpace.data ++ ".".data ++ collection.data) ++
      " WHERE user_id = ".data := by
    simp only [List.mem_append, not_or]
    exact ⟨⟨by decide, ⟨hk, by decide⟩, hc⟩, by decide⟩
  unfold cqlShape
  rw [h1, cqlShapeAux_text_append _ _ hp]
  simp only [cqlShapeAux, if_true]
  rw [cqlShapeAux_literal_append _ _ hu]
  simp [cqlShapeAux, String.ext_iff, String.data_append]

theorem cqlShapeAux_value (v r : List Char) (c : Char) (hv : quote ∉ v) (hc : c ≠ quote) :
    cqlShapeAux .text (quote :: (v ++ quote :: c :: r)) =
      (cqlShapeAux .text r).map (fun t => '?' :: c :: t) := by
  simp [cqlShapeAux, cqlShapeAux_literal_append _ _ hv, hc]


theorem digitChar_ne_quote (n : Nat) (h : n < 10) : Nat.digitChar n ≠ quote := by
  interval_cases n <;> decide

theorem toDigitsCore_quote_free (fuel n : Nat) (ds : List Char) (hds : quote ∉ ds) :
    quote ∉ Nat.toDigitsCore 10 fuel n ds := by
  induction fuel generalizing n ds with
  | zero => simpa [Nat.toDigitsCore] using hds
  | succ fuel ih =>
    have hd : quote ∉ Nat.digitChar (n % 10) :: ds := by
      intro hm
      rcases List.mem_cons.mp hm with h | h
      · exact digitChar_ne_quote (n % 10) (Nat.mod_lt _ (by norm_num)) h.symm
      · exact hds h
    unfold Nat.toDigitsCore
    simp only []
    split_ifs
    · exact hd
    · exact ih _ _ hd

theorem natRepr_quote_free (n : Nat) : quote ∉ (Nat.repr n).data := by
  unfold Nat.repr Nat.toDigits
  simpa [List.asString] using toDigitsCore_quote_free (n + 1) n [] (by simp)

/-- The decimal text of an integer contains no single quote. -/
theorem fmtInt_quote_free (n : Int) : quote ∉ (fmtInt n).data := by
  cases n with
  | ofNat m => exact natRepr_quote_free m
  | negSucc m =>
    show quote ∉ ("-" ++ Nat.repr (Nat.succ m)).data
    rw [String.data_append, List.mem_append, not_or]
    exact ⟨by decide, natRepr_quote_free _⟩

theorem cqlLiteralsAux_text_cur (cur r : List Char) :
    cqlLiteralsAux .text cur r = cqlLiteralsAux .text [] r := by
  cases r <;> simp [cqlLiteralsAux]

theorem cqlLiteralsAux_text_append (p r : List Char) (hp : quote ∉ p) :
    cqlLiteralsAux .text [] (p ++ r) = cqlLiteralsAux .text [] r := by
  induction p with
  | nil => rfl
  | cons c cs ih =>
    have hc : c ≠ quote := fun h => hp (by simp [h])
    have hcs : quote ∉ cs := fun h => hp (List.mem_cons_of_mem _ h)
    simp [cqlLiteralsAux, hc, ih hcs]

theorem cqlLiteralsAux_literal_append (v cur r : List Char) (hv : quote ∉ v) :
    cqlLiteralsAux .literal cur (v ++ r) = cqlLiteralsAux .literal (v.reverse ++ cur) r := by
  induction v generalizing cur with
  | nil => rfl
  | cons c cs ih =>
    have hc : c ≠ quote := fun h => hv (by simp [h])
    have hcs : quote ∉ cs := fun h => hv (List.mem_cons_of_mem _ h)
    simp [cqlLiteralsAux, hc, ih _ hcs]

/-- A literal without a quote inside, followed by statement text that does not start with
a quote, is read as its own text. -/
theorem cqlLiteralsAux_value (v r : List Char) (c : Char) (hv : quote ∉ v) (hc : c ≠ quote) :
    cqlLiteralsAux .text [] (quote :: (v ++ quote :: c :: r)) =
      (cqlLiteralsAux .text [] r).map (String.mk v :: ·) := by
  simp [cqlLiteralsAux, cqlLiteralsAux_literal_append _ _ _ hv, hc]

/-- With no single quote in the keyspace, the table name and the four text fields, the
literals of the insert statement are exactly the id, user id, user agent and ip of the
record. -/
theorem insertSessionQuery_literals (keySpace collection : String) (s : Session)
    (hk : quote ∉ keySpace.data) (hc : quote ∉ collection.data)
    (hid : quote ∉ s.id.data) (huid : quote ∉ s.userID.data)
    (hua : quote ∉ s.userAgent.data) (hip : quote ∉ s.ip.data) :
    cqlLiterals (insertSessionQuery keySpace collection s) =
      some [s.id, s.userID, s.userAgent, s.ip] := by
  have h1 : (insertSessionQuery keySpace collection s).data =
      ("INSERT INTO ".data ++ (keySpace.data ++ ".".data ++ collection.data) ++
        " (id, user_id, user_agent, ip, created_at, updated_at) VALUES (".data) ++
      (quote :: (s.id.data ++ quote :: ',' :: (" ".data ++
      (quote :: (s.userID.data ++ quote :: ',' :: (" ".data ++
      (quote :: (s.userAgent.data ++ quote :: ',' :: (" ".data ++
      (quote :: (s.ip.data ++ quote :: ',' :: (" ".data ++ (fmtInt s.createdAt).data ++
        ", ".data ++ (fmtInt s.updatedAt).data ++ ")".data)))))))))))) := by
    simp [insertSessionQuery, String.data_append]
    rfl
  have hp : quote ∉ "INSERT INTO ".data ++ (keySpace.data ++ ".".data ++ collection.data) ++
      " (id, user_id, user_agent, ip, created_at, updated_at) VALUES (".data := by
    simp only [List.mem_append, not_or]
    exact ⟨⟨by decide, ⟨hk, by decide⟩, hc⟩, by decide⟩
  have ht : quote ∉ " ".data ++ (fmtInt s.createdAt).data ++ ", ".data ++
      (fmtInt s.updatedAt).data ++ ")".data := by
    simp only [List.mem_append, not_or]
    exact ⟨⟨⟨⟨by decide, fmtInt_quote_free _⟩, by decide⟩, fmtInt_quote_free _⟩, by decide⟩
  have hsp : quote ∉ " ".data := by decide
  have hcomma : ',' ≠ quote := by decide
  unfold cqlLiterals
  rw [h1, cqlLiteralsAux_text_append _ _ hp,
    cqlLiteralsAux_value _ _ _ hid hcomma, cqlLiteralsAux_text_append _ _ hsp,
    cqlLiteralsAux_value _ _ _ huid hcomma, cqlLiteralsAux_text_append _ _ hsp,
    cqlLiteralsAux_value _ _ _ hua hcomma, cqlLiteralsAux_text_append _ _ hsp,
    cqlLiteralsAux_value _ _ _ hip hcomma]
  have hend := cqlLiteralsAux_text_append _ [] ht
  rw [List.append_nil] at hend
  rw [hend]
  simp [cqlLiteralsAux]

/-- With no single quote in the keyspace, the table name and the four text fields, the
insert statement has one structure: four bound places and the two times in decimal. -/
theorem insertSessionQuery_shape (keySpace collection : String) (s : Session)
    (hk : quote ∉ keySpace.data) (hc : quote ∉ collection.data)
    (hid : quote ∉ s.id.data) (huid : quote ∉ s.userID.data)
    (hua : quote ∉ s.userAgent.data) (hip : quote ∉ s.ip.data) :
    cqlShape (insertSessionQuery keySpace collection s) =
      some ("INSERT INTO " ++ (keySpace ++ "." ++ collection) ++
        " (id, user_id, user_agent, ip, created_at, updated_at) VALUES (?, ?, ?, ?, " ++
        fmtInt s.createdAt ++ ", " ++ fmtInt s.updatedAt ++ ")") := by
  have h1 : (insertSessionQuery keySpace collection s).data =
      ("INSERT INTO ".data ++ (keySpace.data ++ ".".data ++ collection.data) ++
        " (id, user_id, user_agent, ip, created_at, updated_at) VALUES (".data) ++
      (quote :: (s.id.data ++ quote :: ',' :: (" ".data ++
      (quote :: (s.userID.data ++ quote :: ',' :: (" ".data ++
      (quote :: (s.userAgent.data ++ quote :: ',' :: (" ".data ++
      (quote :: (s.ip.data ++ quote :: ',' :: (" ".data ++ (fmtInt s.createdAt).data ++
        ", ".data ++ (fmtInt s.updatedAt).data ++ ")".data)))))))))))) := by
    simp [insertSessionQuery, String.data_append]
    rfl
  have hp : quote ∉ "INSERT INTO ".data ++ (keySpace.data ++ ".".data ++ collection.data) ++
      " (id, user_id, user_agent, ip, created_at, updated_at) VALUES (".data := by
    simp only [List.mem_append, not_or]
    exact ⟨⟨by decide, ⟨hk, by decide⟩, hc⟩, by decide⟩
  have ht : quote ∉ " ".data ++ (fmtInt s.createdAt).data ++ ", ".data ++
      (fmtInt s.updatedAt).data ++ ")".data := by
    simp only [List.mem_append, not_or]
    exact ⟨⟨⟨⟨by decide, fmtInt_quote_free _⟩, by decide⟩, fmtInt_quote_free _⟩, by decide⟩
  have hsp : quote ∉ " ".data := by decide
  have hcomma : ',' ≠ quote := by decide
  have hend := cqlShapeAux_text_append _ [] ht
  rw [List.append_nil] at hend
  unfold cqlShape
  rw [h1, cqlShapeAux_text_append _ _ hp,
    cqlShapeAux_value _ _ _ hid hcomma, cqlShapeAux_text_append _ _ hsp,
    cqlShapeAux_value _ _ _ huid hcomma, cqlShapeAux_text_append _ _ hsp,
    cqlShapeAux_value _ _ _ hua hcomma, cqlShapeAux_text_append _ _ hsp,
    cqlShapeAux_value _ _ _ hip hcomma, hend]
  simp [cqlShapeAux, String.ext_iff, String.data_append]

/-- What `AddSession` inserts when no text field, keyspace or table name contains a single
quote: the statement it sends has the fixed structure, and the values it carries are the
id (the record's own, or the fresh uuid for an empty one), the user id, user agent and ip
of the record, and the two clock readings in seconds. -/
theorem AddSession_inserts_record (exec : String → Option Error)
    (keySpace collection newUUID : String) (t1 t2 : Int) (s : Session)
    (hk : quote ∉ keySpace.data) (hc : quote ∉ collection.data)
    (hnew : quote ∉ newUUID.data) (hid : quote ∉ s.id.data) (huid : quote ∉ s.userID.data)
    (hua : quote ∉ s.userAgent.data) (hip : quote ∉ s.ip.data) :
    ∃ q, AddSession exec keySpace collection newUUID t1 t2 s = exec q ∧
      cqlLiterals q =
        some [if s.id = "" then newUUID else s.id, s.userID, s.userAgent, s.ip] ∧
      cqlShape q =
        some ("INSERT INTO " ++ (keySpace ++ "." ++ collection) ++
          " (id, user_id, user_agent, ip, created_at, updated_at) VALUES (?, ?, ?, ?, " ++
          fmtInt (Unix t1) ++ ", " ++ fmtInt (Unix t2) ++ ")") := by
  have hrec : quote ∉ (AddSessionRecord newUUID t1 t2 s).id.data := by
    by_cases hsid : s.id = "" <;> simp [AddSessionRecord, hsid, hnew, hid]
  have e1 : (AddSessionRecord newUUID t1 t2 s).userID = s.userID := by
    by_cases hsid : s.id = "" <;> simp [AddSessionRecord, hsid]
  have e2 : (AddSessionRecord newUUID t1 t2 s).userAgent = s.userAgent := by
    by_cases hsid : s.id = "" <;> simp [AddSessionRecord, hsid]
  have e3 : (AddSessionRecord newUUID t1 t2 s).ip = s.ip := by
    by_cases hsid : s.id = "" <;> simp [AddSessionRecord, hsid]
  refine ⟨_, AddSession_sends exec keySpace collection newUUID t1 t2 s, ?_, ?_⟩
  · rw [insertSessionQuery_literals keySpace collection _ hk hc hrec (e1 ▸ huid) (e2 ▸ hua)
      (e3 ▸ hip)]
    by_cases hsid : s.id = "" <;> simp [AddSessionRecord, hsid]
  · rw [insertSessionQuery_shape keySpace collection _ hk hc hrec (e1 ▸ huid) (e2 ▸ hua)
      (e3 ▸ hip)]
    simp [AddSessionRecord]

/-- Claim C7, the code at a failing input. For a session whose user agent is `it''s`,
`AddSession` leaves the record in memory as the claim says (fresh id, both times, the other
fields unchanged) but splices the user agent into the statement between quotes without
escaping it; the store reads the doubled quote as one, so the row that is inserted has
user agent `it's`, not the record's. -/
theorem addSession_inserts_other_user_agent :
    AddSessionRecord "6ba7b810-9dad-11d1-80b4-00c04fd430c8" 5000000000 5000000000
        quotedSession =
      { id := "6ba7b810-9dad-11d1-80b4-00c04fd430c8", userID := "u1", userAgent := "it''s",
        ip := "10.0.0.1", createdAt := 5, updatedAt := 5 } ∧
    AddSession echoExec "authorizer" "authorizer_sessions"
        "6ba7b810-9dad-11d1-80b4-00c04fd430c8" 5000000000 5000000000 quotedSession =
      some "INSERT INTO authorizer.authorizer_sessions (id, user_id, user_agent, ip, created_at, updated_at) VALUES ('6ba7b810-9dad-11d1-80b4-00c04fd430c8', 'u1', 'it''s', '10.0.0.1', 5, 5)" ∧
    (AddSession echoExec "authorizer" "authorizer_sessions"
        "6ba7b810-9dad-11d1-80b4-00c04fd430c8" 5000000000 5000000000 quotedSession).bind
        cqlLiterals =
      some ["6ba7b810-9dad-11d1-80b4-00c04fd430c8", "u1", "it's", "10.0.0.1"] ∧
    quotedSession.userAgent ≠ "it's" := by
  decide

/-- Claim C8, the code at failing inputs. `DeleteSession` and `AddSession` splice the value
into the text of the statement they send: a user id or a user agent that contains a single
quote changes the structure of the statement (a second condition after the literal, a
fifth literal among the values, or a literal that is never closed), where a bound value
would leave the structure unchanged. -/
theorem session_queries_splice_values :
    DeleteSession echoExec "authorizer" "authorizer_sessions" "u1" =
      some "DELETE FROM authorizer.authorizer_sessions WHERE user_id = 'u1'" ∧
    (DeleteSession echoExec "authorizer" "authorizer_sessions" "u1").bind cqlShape =
      some "DELETE FROM authorizer.authorizer_sessions WHERE user_id = ?" ∧
    DeleteSession echoExec "authorizer" "authorizer_sessions" "u1' AND id > '" =
      some "DELETE FROM authorizer.authorizer_sessions WHERE user_id = 'u1' AND id > ''" ∧
    (DeleteSession echoExec "authorizer" "authorizer_sessions" "u1' AND id > '").bind cqlShape =
      some "DELETE FROM authorizer.authorizer_sessions WHERE user_id = ? AND id > ?" ∧
    (AddSession echoExec "authorizer" "authorizer_sessions" "s1" 5000000000 5000000000
        (demoSession "curl")).bind cqlShape =
      some "INSERT INTO authorizer.authorizer_sessions (id, user_id, user_agent, ip, created_at, updated_at) VALUES (?, ?, ?, ?, 5, 5)" ∧
    AddSession echoExec "authorizer" "authorizer_sessions" "s1" 5000000000 5000000000
        (demoSession "curl', '6.6.6.6") =
      some "INSERT INTO authorizer.authorizer_sessions (id, user_id, user_agent, ip, created_at, updated_at) VALUES ('s1', 'u1', 'curl', '6.6.6.6', '10.0.0.1', 5, 5)" ∧
    (AddSession echoExec "authorizer" "authorizer_sessions" "s1" 5000000000 5000000000
        (demoSession "curl', '6.6.6.6")).bind cqlShape =
      some "INSERT INTO authorizer.authorizer_sessions (id, user_id, user_agent, ip, created_at, updated_at) VALUES (?, ?, ?, ?, ?, 5, 5)" ∧
    (AddSession echoExec "authorizer" "authorizer_sessions" "s1" 5000000000 5000000000
        (demoSession "O'Brien")).bind cqlShape = none := by
  decide

/-! ## Properties of `NewProvider` -/

theorem Schema.le_refl (s : Schema) : s.le s :=
  ⟨fun _ h => h, fun _ h => h, fun _ h => h⟩

theorem Schema.le_trans {a b c : Schema} (h1 : a.le b) (h2 : b.le c) : a.le c :=
  ⟨fun _ h => h2.1 (h1.1 h), fun _ h => h2.2.1 (h1.2.1 h), fun _ h => h2.2.2 (h1.2.2 h)⟩

theorem Schema.holds_mono {a b : Schema} (h : a.le b) (stmt : Stmt) (hs : a.holds stmt) :
    b.holds stmt := by
  cases stmt with
  | createKeyspace k => exact h.1 hs
  | createTableIfNotExists k t cols => exact ⟨h.1 hs.1, h.2.1 hs.2⟩
  | createIndexIfNotExists n k t col => exact ⟨h.2.1 hs.1, h.2.2 hs.2⟩

/-- A statement whose needs are met succeeds, leaves its object in the schema and removes
nothing. -/
theorem Schema.exec_ready (s : Schema) (stmt : Stmt) (h : s.ready stmt) :
    (s.exec stmt).2 = none ∧ (s.exec stmt).1.holds stmt ∧ s.le (s.exec stmt).1 := by
  cases stmt with
  | createKeyspace k =>
    have h' : k ∉ s.keyspaces := h
    simp [Schema.exec, h', Schema.holds, Schema.le]
  | createTableIfNotExists k t cols =>
    have h' : k ∈ s.keyspaces := h
    by_cases ht : (k, t) ∈ s.tables
    · simp [Schema.exec, h', ht, Schema.holds, Schema.le]
    · simp [Schema.exec, h', ht, Schema.holds, Schema.le]
  | createIndexIfNotExists n k t col =>
    have h' : (k, t) ∈ s.tables := h
    by_cases hi : (k, n) ∈ s.indexes
    · simp [Schema.exec, h', hi, Schema.holds, Schema.le]
    · simp [Schema.exec, h', hi, Schema.holds, Schema.le]

/-- A statement that succeeded had its needs met. -/
theorem Schema.ready_of_exec (s : Schema) (stmt : Stmt) (h : (s.exec stmt).2 = none) :
    s.ready stmt := by
  cases stmt with
  | createKeyspace k =>
    by_cases hk : k ∈ s.keyspaces
    · simp [Schema.exec, hk] at h
    · exact hk
  | createTableIfNotExists k t cols =>
    by_cases hk : k ∈ s.keyspaces
    · exact hk
    · simp [Schema.exec, hk] at h
  | createIndexIfNotExists n k t col =>
    by_cases hk : (k, t) ∈ s.tables
    · exact hk
    · simp [Schema.exec, hk] at h

/-- An `IF NOT EXISTS` statement whose object is there changes nothing and succeeds. -/
theorem Schema.exec_holds (s : Schema) (stmt : Stmt) (h : s.holds stmt)
    (hk : stmt.isCreateKeyspace = false) : s.exec stmt = (s, none) := by
  cases stmt with
  | createKeyspace k => simp [Stmt.isCreateKeyspace] at hk
  | createTableIfNotExists k t cols =>
    have h1 : k ∈ s.keyspaces := h.1
    have h2 : (k, t) ∈ s.tables := h.2
    simp [Schema.exec, h1, h2]
  | createIndexIfNotExists n k t col =>
    have h1 : (k, t) ∈ s.tables := h.1
    have h2 : (k, n) ∈ s.indexes := h.2
    simp [Schema.exec, h1, h2]

/-- When every statement succeeded, all were executed, each one's object is in the final
schema, and nothing was removed. -/
theorem execAll_schema_ok (stmts : List Stmt) (s : Schema)
    (h : (execAll schemaDriver s stmts).2.1 = none) :
    (execAll schemaDriver s stmts).2.2 = stmts ∧
      (∀ stmt ∈ stmts, (execAll schemaDriver s stmts).1.holds stmt) ∧
      s.le (execAll schemaDriver s stmts).1 := by
  induction stmts generalizing s with
  | nil => simp [execAll, Schema.le_refl]
  | cons stmt rest ih =>
    cases hq : (s.exec stmt).2 with
    | some e =>
      have hx : schemaDriver.exec s stmt = ((s.exec stmt).1, some e) := by
        rw [← hq]; rfl
      simp [execAll, hx] at h
    | none =>
      have hx : schemaDriver.exec s stmt = ((s.exec stmt).1, none) := by
        rw [← hq]; rfl
      simp only [execAll, hx] at h ⊢
      obtain ⟨h1, h2, h3⟩ := ih (s.exec stmt).1 h
      obtain ⟨_, g2, g3⟩ := Schema.exec_ready s stmt (Schema.ready_of_exec s stmt hq)
      refine ⟨by rw [h1], ?_, Schema.le_trans g3 h3⟩
      intro st hst
      rcases List.mem_cons.mp hst with rfl | hst
      · exact Schema.holds_mono h3 _ g2
      · exact h2 st hst

/-- Statements whose objects are all there, none of them `CREATE KEYSPACE`, change nothing. -/
theorem execAll_schema_noop (stmts : List Stmt) (s : Schema)
    (h : ∀ stmt ∈ stmts, s.holds stmt ∧ stmt.isCreateKeyspace = false) :
    execAll schemaDriver s stmts = (s, none, stmts) := by
  induction stmts with
  | nil => rfl
  | cons stmt rest ih =>
    have h0 := h stmt (List.mem_cons_self _ _)
    have hx : schemaDriver.exec s stmt = (s, none) := Schema.exec_holds s stmt h0.1 h0.2
    have hr := ih (fun st hst => h st (List.mem_cons_of_mem _ hst))
    simp [execAll, hx, hr]

/-- The loop over the keyspace listing of a schema finds a keyspace exactly when it is
there. -/
theorem scanLoop_schema (keySpace : String) (ks : List String) :
    scanLoop keySpace (ks.map (fun k => (k, none))) = .ok (decide (keySpace ∈ ks)) := by
  induction ks with
  | nil => simp [scanLoop]
  | cons k rest ih =>
    by_cases hk : k = keySpace
    · simp [scanLoop, hk]
    · have hk' : ¬ keySpace = k := fun h => hk h.symm
      simp [scanLoop, hk, hk', ih]

theorem collectionStmts_not_keyspace (keySpace : String) (c : Collections) :
    ∀ stmt ∈ collectionStmts keySpace c, stmt.isCreateKeyspace = false := by
  intro stmt h
  simp [collectionStmts] at h
  rcases h with h | h | h | h | h | h | h | h <;> subst h <;> rfl

theorem execAll_cons_ok {σ : Type} (d : Driver σ) (s s1 : σ) (stmt : Stmt) (rest : List Stmt)
    (h : d.exec s stmt = (s1, none)) :
    execAll d s (stmt :: rest) =
      ((execAll d s1 rest).1, (execAll d s1 rest).2.1, stmt :: (execAll d s1 rest).2.2) := by
  simp [execAll, h]

/-- Statements in a workable order all succeed. -/
theorem execAll_schema_wellOrdered (stmts : List Stmt) (ksA : List String)
    (tA : List (String × String)) (s : Schema)
    (hk : ∀ k ∈ ksA, k ∈ s.keyspaces) (ht : ∀ p ∈ tA, p ∈ s.tables)
    (hw : wellOrdered ksA tA stmts) :
    (execAll schemaDriver s stmts).2.1 = none := by
  induction stmts generalizing tA s with
  | nil => rfl
  | cons stmt rest ih =>
    cases stmt with
    | createKeyspace k => exact absurd hw (by simp [wellOrdered])
    | createTableIfNotExists k t cols =>
      obtain ⟨hw1, hw2⟩ := hw
      obtain ⟨g1, g2, g3⟩ := Schema.exec_ready s (.createTableIfNotExists k t cols) (hk k hw1)
      have hx : schemaDriver.exec s (.createTableIfNotExists k t cols) =
          ((s.exec (.createTableIfNotExists k t cols)).1, none) := by
        rw [← g1]; rfl
      simp only [execAll, hx]
      refine ih ((k, t) :: tA) _ (fun k' hk' => g3.1 (hk k' hk')) ?_ hw2
      intro p hp
      rcases List.mem_cons.mp hp with rfl | hp
      · exact g2.2
      · exact g3.2.1 (ht p hp)
    | createIndexIfNotExists n k t col =>
      obtain ⟨hw1, hw2⟩ := hw
      obtain ⟨g1, _, g3⟩ := Schema.exec_ready s (.createIndexIfNotExists n k t col) (ht _ hw1)
      have hx : schemaDriver.exec s (.createIndexIfNotExists n k t col) =
          ((s.exec (.createIndexIfNotExists n k t col)).1, none) := by
        rw [← g1]; rfl
      simp only [execAll, hx]
      exact ih tA _ (fun k' hk' => g3.1 (hk k' hk')) (fun p hp => g3.2.1 (ht p hp)) hw2

theorem collectionStmts_wellOrdered (keySpace : String) (c : Collections) :
    wellOrdered [keySpace] [] (collectionStmts keySpace c) := by
  simp [collectionStmts, wellOrdered]

/-- On a store without the keyspace, provisioning creates it and succeeds. -/
theorem provision_schema_fresh (keySpace : String) (c : Collections) (s : Schema)
    (h : keySpace ∉ s.keyspaces) :
    (provision schemaDriver keySpace c s).2.1 = none ∧
      (provision schemaDriver keySpace c s).2.2 =
        Step.listKeyspaces :: Step.exec (.createKeyspace keySpace) ::
          (collectionStmts keySpace c).map Step.exec := by
  obtain ⟨g1, g2, _⟩ := Schema.exec_ready s (.createKeyspace keySpace) h
  have hx : schemaDriver.exec s (.createKeyspace keySpace) =
      ((s.exec (.createKeyspace keySpace)).1, none) := by
    rw [← g1]; rfl
  have hscan : scanLoop keySpace (schemaDriver.scanKeyspaces s).1 = .ok false := by
    have := scanLoop_schema keySpace s.keyspaces
    rw [decide_eq_false h] at this
    exact this
  have hok := execAll_schema_wellOrdered (collectionStmts keySpace c) [keySpace] []
    (s.exec (.createKeyspace keySpace)).1
    (fun k hk => by
      rcases List.mem_singleton.mp hk with rfl
      exact g2)
    (fun p hp => by simp at hp)
    (collectionStmts_wellOrdered keySpace c)
  have hall := execAll_schema_ok _ _ hok
  unfold provision
  rw [hscan]
  simp only [Bool.not_false, if_true]
  rw [execAll_cons_ok _ _ _ _ _ hx]
  simp [hok, hall.1]

/-- After a run that succeeded, provisioning again sends no `CREATE KEYSPACE`, succeeds
and leaves the schema as it is. -/
theorem provision_schema_again (keySpace : String) (c : Collections) (s : Schema)
    (h : (provision schemaDriver keySpace c s).2.1 = none) :
    provision schemaDriver keySpace c (provision schemaDriver keySpace c s).1 =
      ((provision schemaDriver keySpace c s).1, none,
        Step.listKeyspaces :: (collectionStmts keySpace c).map Step.exec) := by
  have hscan := scanLoop_schema keySpace s.keyspaces
  have hholds : ∀ stmt ∈ collectionStmts keySpace c,
      (provision schemaDriver keySpace c s).1.holds stmt := by
    unfold provision at h ⊢
    have hscan' : scanLoop keySpace (schemaDriver.scanKeyspaces s).1 =
        .ok (decide (keySpace ∈ s.keyspaces)) := hscan
    rw [hscan'] at h ⊢
    simp only [] at h ⊢
    intro stmt hstmt
    have := (execAll_schema_ok _ _ h).2.1 stmt
      (by
        split_ifs
        · exact List.mem_cons_of_mem _ hstmt
        · exact hstmt)
    exact this
  have hks : keySpace ∈ (provision schemaDriver keySpace c s).1.keyspaces := by
    have := hholds (.createTableIfNotExists keySpace c.env
      "id text, env text, hash text, updated_at bigint, created_at bigint, PRIMARY KEY (id)")
      (by simp [collectionStmts])
    exact this.1
  have hscan2 : scanLoop keySpace
      (schemaDriver.scanKeyspaces (provision schemaDriver keySpace c s).1).1 = .ok true := by
    have := scanLoop_schema keySpace (provision schemaDriver keySpace c s).1.keyspaces
    rw [decide_eq_true hks] at this
    exact this
  have hnoop := execAll_schema_noop (collectionStmts keySpace c)
    (provision schemaDriver keySpace c s).1
    (fun stmt hstmt => ⟨hholds stmt hstmt, collectionStmts_not_keyspace keySpace c stmt hstmt⟩)
  generalize hs1 : (provision schemaDriver keySpace c s).1 = s1 at *
  simp [provision, hscan2, hnoop]

/-- Against the schema store every connection step succeeds, so `NewProvider` returns what
its provisioning steps return. -/
theorem NewProvider_schema (cfg : EnvStore) (c : Collections) (s : Schema) :
    (NewProvider schemaDriver cfg c s).err = (provision schemaDriver cfg.databaseName c s).2.1 ∧
    (NewProvider schemaDriver cfg c s).store = (provision schemaDriver cfg.databaseName c s).1 ∧
    ((NewProvider schemaDriver cfg c s).provider = none ↔
      (provision schemaDriver cfg.databaseName c s).2.1 ≠ none) ∧
    (∀ stmt, Step.exec stmt ∈ (NewProvider schemaDriver cfg c s).steps ↔
      Step.exec stmt ∈ (provision schemaDriver cfg.databaseName c s).2.2) := by
  unfold NewProvider
  simp only []
  split_ifs with h1 h2 <;>
    cases hq : (provision schemaDriver cfg.databaseName c s).2.1 <;>
    simp [schemaDriver, hq]

/-- No run of `NewProvider` returns a provider together with an error, or neither. -/
theorem NewProvider_provider_iff {σ : Type} (d : Driver σ) (cfg : EnvStore) (c : Collections)
    (s : σ) :
    (NewProvider d cfg c s).provider = none ↔ (NewProvider d cfg c s).err ≠ none := by
  unfold NewProvider
  simp only []
  split_ifs <;> (repeat' split) <;> simp_all

/-- Claim C9. With the store modelled by its keyspaces, tables and indexes, for every
configuration (so every keyspace name) and all table names: `NewProvider` on the empty
store succeeds and leaves every table and index of the source in the schema; run again on
the resulting store it succeeds and leaves the schema exactly as it was; the first run
sends `CREATE KEYSPACE` (the listing does not contain the keyspace) and the second does
not (the listing contains it). -/
theorem provisioning_idempotent (cfg : EnvStore) (c : Collections) :
    (NewProvider schemaDriver cfg c Schema.empty).err = none ∧
    (NewProvider schemaDriver cfg c Schema.empty).provider ≠ none ∧
    (∀ stmt ∈ collectionStmts cfg.databaseName c,
      (NewProvider schemaDriver cfg c Schema.empty).store.holds stmt) ∧
    (NewProvider schemaDriver cfg c (NewProvider schemaDriver cfg c Schema.empty).store).err
      = none ∧
    (NewProvider schemaDriver cfg c (NewProvider schemaDriver cfg c Schema.empty).store).provider
      ≠ none ∧
    (NewProvider schemaDriver cfg c (NewProvider schemaDriver cfg c Schema.empty).store).store
      = (NewProvider schemaDriver cfg c Schema.empty).store ∧
    Step.exec (.createKeyspace cfg.databaseName) ∈
      (NewProvider schemaDriver cfg c Schema.empty).steps ∧
    Step.exec (.createKeyspace cfg.databaseName) ∉
      (NewProvider schemaDriver cfg c (NewProvider schemaDriver cfg c Schema.empty).store).steps := by
  obtain ⟨a1, a2, a3, a4⟩ := NewProvider_schema cfg c Schema.empty
  obtain ⟨f1, f2⟩ := provision_schema_fresh cfg.databaseName c Schema.empty
    (by simp [Schema.empty])
  have hag := provision_schema_again cfg.databaseName c Schema.empty f1
  obtain ⟨b1, b2, b3, b4⟩ := NewProvider_schema cfg c
    (provision schemaDriver cfg.databaseName c Schema.empty).1
  have hnk := collectionStmts_not_keyspace cfg.databaseName c
  rw [a2]
  refine ⟨a1.trans f1, ?_, ?_, ?_, ?_, ?_, ?_, ?_⟩
  · intro hp
    exact (a3.mp hp) f1
  · intro stmt hstmt
    have hscan : scanLoop cfg.databaseName (schemaDriver.scanKeyspaces Schema.empty).1 =
        .ok false := rfl
    have hrun := f1
    unfold provision at hrun ⊢
    rw [hscan] at hrun ⊢
    exact (execAll_schema_ok _ _ hrun).2.1 stmt (List.mem_cons_of_mem _ hstmt)
  · rw [b1, hag]
  · intro hp
    have := b3.mp hp
    rw [hag] at this
    exact this rfl
  · rw [b2, hag]
  · rw [a4, f2]
    simp
  · rw [b4, hag]
    intro hm
    simp only [List.mem_cons, List.mem_map] at hm
    rcases hm with hm | ⟨st, hst, heq⟩
    · cases hm
    · cases heq
      have := hnk _ hst
      simp [Stmt.isCreateKeyspace] at this

/-- Statements are executed in order and none after the first failure: when no statement
failed, all were executed. -/
theorem execAll_executed {σ : Type} (d : Driver σ) (stmts : List Stmt) (s : σ) :
    (execAll d s stmts).2.2 <+: stmts ∧
      ((execAll d s stmts).2.1 = none → (execAll d s stmts).2.2 = stmts) := by
  induction stmts generalizing s with
  | nil => simp [execAll]
  | cons stmt rest ih =>
    rcases hq : d.exec s stmt with ⟨s1, _ | e⟩
    · obtain ⟨h1, h2⟩ := ih s1
      simp only [execAll, hq]
      refine ⟨?_, fun h => by rw [h2 h]⟩
      exact List.cons_prefix_cons.mpr ⟨rfl, h1⟩
    · simp only [execAll, hq]
      exact ⟨⟨rest, rfl⟩, fun h => by cases h⟩

/-- When provisioning reports no error, every table and index statement was executed. -/
theorem provision_ok_steps {σ : Type} (d : Driver σ) (keySpace : String) (c : Collections)
    (s : σ) (h : (provision d keySpace c s).2.1 = none) :
    ∀ stmt ∈ collectionStmts keySpace c, Step.exec stmt ∈ (provision d keySpace c s).2.2 := by
  intro stmt hstmt
  unfold provision at h ⊢
  cases hscan : scanLoop keySpace (d.scanKeyspaces s).1 with
  | error e => simp [hscan] at h
  | ok has =>
    simp only [hscan] at h ⊢
    have hex := (execAll_executed d _ s).2 h
    rw [hex]
    refine List.mem_cons_of_mem _ (List.mem_map.mpr ⟨stmt, ?_, rfl⟩)
    split_ifs
    · exact List.mem_cons_of_mem _ hstmt
    · exact hstmt

/-- A run of `NewProvider` that returns no error created the session and executed every
table and index statement. -/
theorem NewProvider_ok_steps {σ : Type} (d : Driver σ) (cfg : EnvStore) (c : Collections)
    (s : σ) (h : (NewProvider d cfg c s).err = none) :
    Step.createSession ∈ (NewProvider d cfg c s).steps ∧
    ∀ stmt ∈ collectionStmts cfg.databaseName c,
      Step.exec stmt ∈ (NewProvider d cfg c s).steps := by
  have hp := provision_ok_steps d cfg.databaseName c s
  unfold NewProvider at h ⊢
  simp only [] at h ⊢
  split_ifs at h ⊢ <;> (repeat' split at h) <;> simp_all

/-- Claim C10, the code at failing inputs. First: TLS is configured and the CA text does
not parse (`AppendCertsFromPEM` returns false); `NewProvider` returns a provider and no
error. Second: the keyspace listing fails (no rows, the error waiting in `Err()`);
`NewProvider` goes on to `CREATE KEYSPACE` and returns a provider and no error. Third: the
same failure on a store that has the keyspace; `NewProvider` sends `CREATE KEYSPACE` and
returns the error of that later step, not the error of the listing. -/
theorem newProvider_unchecked_steps :
    (badCADriver.appendCertsFromPEM (badCADriver.decryptB64 tlsEnvStore.databaseCACert).1 = false ∧
      Step.appendCertsFromPEM ∈
        (NewProvider badCADriver tlsEnvStore demoCollections Schema.empty).steps ∧
      (NewProvider badCADriver tlsEnvStore demoCollections Schema.empty).err = none ∧
      (NewProvider badCADriver tlsEnvStore demoCollections Schema.empty).provider ≠ none) ∧
    ((listingFailsDriver.scanKeyspaces Schema.empty).2 =
        some "gocql: no response received from cassandra within timeout period" ∧
      Step.exec (.createKeyspace "authorizer") ∈
        (NewProvider listingFailsDriver plainEnvStore demoCollections Schema.empty).steps ∧
      (NewProvider listingFailsDriver plainEnvStore demoCollections Schema.empty).err = none ∧
      (NewProvider listingFailsDriver plainEnvStore demoCollections Schema.empty).provider
        ≠ none) ∧
    ((listingFailsDriver.scanKeyspaces keyspaceOnlySchema).2 =
        some "gocql: no response received from cassandra within timeout period" ∧
      Step.exec (.createKeyspace "authorizer") ∈
        (NewProvider listingFailsDriver plainEnvStore demoCollections keyspaceOnlySchema).steps ∧
      (NewProvider listingFailsDriver plainEnvStore demoCollections keyspaceOnlySchema).err =
        some "Cannot add existing keyspace authorizer") := by
  decide

end Authorizer
